import Mathlib

/-!
Shallow embedding of the rustboy Game Boy emulator (src/src of the
repository) in Lean 4, used to settle the claims of the specification
against the code.

Conventions of the embedding:
* Machine integers (`u8`, `u16`, `i32`) are modelled as `Nat` (and `Int` for
  the cycle counters).  Where the Rust code performs arithmetic on an
  unsigned integer that may overflow (`wrapping_add`, `wrapping_sub`, plain
  `+`/`-` under the release profile, `as u8`/`as u16` casts, shifts), the
  embedding reduces modulo `2^8` / `2^16` at that point.  `i8`/`i16`
  sign-extension casts are modelled on the 16-bit two's-complement bit
  pattern.
* Rust `Vec<u8>` (the ROM and boot images) is modelled as `ByteVec`, a
  length together with a contents function; `Vec::get` is `ByteVec.get?`
  and an indexing / `.expect` panic is `Option.none`.  Fixed-size boxed
  slices whose indices are bounded by the surrounding range check
  (`internal_ram`, `vram`, ...) are modelled as total functions `Nat → Nat`.
* A Rust `panic!` / `unreachable!` / slice-index failure aborts the
  program, so every fallible operation returns an `Option`; `none` is the
  panic.
* Debug-only printing (`print_instructions`, `console_tx`,
  `instruction_string`, `println!`) has no effect on the machine state and
  is omitted.
-/

set_option maxHeartbeats 1000000
set_option maxRecDepth 4000

namespace Rustboy

/-- Helper `check_bit` of interconnect.rs / utils: `val & (1 << b) > 0`. -/
def check_bit (val b : Nat) : Bool := val &&& (1 <<< b) > 0

/-- Helper `u16_as_u8s` of cpu.rs: `((val >> 8) as u8, (val & 0xFF) as u8)`. -/
def u16_as_u8s (val : Nat) : Nat × Nat := ((val >>> 8) &&& 0xFF, val &&& 0xFF)

/-- Helper `u8s_as_u16` of cpu.rs: `((val.0 as u16) << 8) + val.1 as u16`. -/
def u8s_as_u16 (val : Nat × Nat) : Nat := ((val.1 <<< 8) + val.2) % 0x10000

/-- Sign extension `(x as i8) as i16 as u16` on the 16-bit bit pattern. -/
def sext8 (v : Nat) : Nat := if v ≥ 0x80 then v + 0xFF00 else v

/-- Model of a Rust `Vec<u8>`: a length and a contents function.  `get?`
is `Vec::get`; indexing out of range is a panic, i.e. `none`. -/
structure ByteVec where
  len : Nat
  data : Nat → Nat

def ByteVec.get? (v : ByteVec) (i : Nat) : Option Nat :=
  if i < v.len then some (v.data i) else none

/-! ## Memory map constants (memory_map.rs) -/

def ROM_BANK0_START : Nat := 0x0000
def ROM_BANK0_END : Nat := 0x4000
def SWITCH_ROM_BANK_START : Nat := 0x4000
def SWITCH_ROM_BANK_END : Nat := 0x8000
def SWITCH_ROM_BANK_LENGTH : Nat := SWITCH_ROM_BANK_END - SWITCH_ROM_BANK_START
def VRAM_START : Nat := 0x8000
def VRAM_END : Nat := 0xA000
def VRAM_LENGTH : Nat := VRAM_END - VRAM_START
def SWITCH_RAM_BANK_START : Nat := 0xA000
def SWITCH_RAM_BANK_END : Nat := 0xC000
def SWITCH_RAM_BANK_LENGTH : Nat := SWITCH_RAM_BANK_END - SWITCH_RAM_BANK_START
def INTERNAL_RAM_START : Nat := 0xC000
def INTERNAL_RAM_END : Nat := 0xE000
def ECHO_RAM_START : Nat := 0xE000
def ECHO_RAM_END : Nat := 0xFE00
def SPRITE_MEM_START : Nat := 0xFE00
def SPRITE_MEM_END : Nat := 0xFEA0
def SPRITE_MEM_LENGTH : Nat := SPRITE_MEM_END - SPRITE_MEM_START
def IO_PORTS_START : Nat := 0xFF00
def IO_PORTS_END : Nat := 0xFF4C
def INTERNAL_RAM2_START : Nat := 0xFF80
def INTERNAL_RAM2_END : Nat := 0xFFFF
def INTERRUPT_REGISTER : Nat := 0xFFFF

/-- Modelled from the spec: the cartridge bank-control register ranges
(`ENABLE_RAM_BANK_*`, `CHOOSE_ROM_BANK_*`, `CHOOSE_RAM_BANK_*`,
`CHOOSE_MEMORY_MODE_*`) are referenced by interconnect.rs and cartridge.rs
but their defining constants are not present in the src tree (the
memory_map.rs revision in src predates them).  They are reconstructed here
from the spec (§6: "Cartridge bank-control registers (address sub-ranges
within ROM address space, conventionally)"), i.e. the conventional MBC1
sub-ranges of the ROM address space. -/
def ENABLE_RAM_BANK_START : Nat := 0x0000
def ENABLE_RAM_BANK_END : Nat := 0x2000
def CHOOSE_ROM_BANK_START : Nat := 0x2000
def CHOOSE_ROM_BANK_END : Nat := 0x4000
def CHOOSE_RAM_BANK_START : Nat := 0x4000
def CHOOSE_RAM_BANK_END : Nat := 0x6000
def CHOOSE_MEMORY_MODE_START : Nat := 0x6000
def CHOOSE_MEMORY_MODE_END : Nat := 0x8000

/-! ## Ppu (ppu.rs) -/

/-- `enum State` of ppu.rs. -/
inductive PpuState where
  | OAMSearch
  | PixelTransfer
  | HBlank
  | VBlank
deriving DecidableEq, Repr

/-- `struct Ppu` of ppu.rs.  The `main_window` host handle is omitted
(host windowing is outside the modelled state); the byte arrays are
functions from index to byte. -/
structure Ppu where
  LCD_control : Nat
  LCDC_status : Nat
  scy : Nat
  scx : Nat
  ly : Nat
  lyc : Nat
  bgp : Nat
  obp0 : Nat
  obp1 : Nat
  wy : Nat
  wx : Nat
  sprite_memory : Nat → Nat
  vram : Nat → Nat
  buffer : Nat → Nat
  viewport_buffer : Nat → Nat
  cycles : Int
  state : PpuState

/-- `Ppu::new` of ppu.rs (window creation omitted). -/
def Ppu.new : Ppu :=
  { LCD_control := 0x91
    LCDC_status := 0
    ly := 0
    lyc := 0
    scy := 0
    bgp := 0
    obp0 := 0
    obp1 := 0
    wy := 0
    wx := 0
    scx := 0
    sprite_memory := fun _ => 0
    vram := fun _ => 0
    buffer := fun _ => 0
    viewport_buffer := fun _ => 0
    cycles := 0
    state := PpuState.OAMSearch }

def VIEWPORT_WIDTH : Nat := 160
def VIEWPORT_HEIGHT : Nat := 144
def PPU_WIDTH : Nat := 256
def PPU_HEIGHT : Nat := 256

def Ppu.lcd_display_enabled (p : Ppu) : Bool := p.LCD_control &&& (1 <<< 7) > 0
def Ppu.bg_window_tile_data (p : Ppu) : Nat :=
  if p.LCD_control &&& (1 <<< 4) > 0 then 0x8000 else 0x8800
def Ppu.bg_tile_map_address (p : Ppu) : Nat :=
  if p.LCD_control &&& (1 <<< 3) > 0 then 0x9C00 else 0x9800
def Ppu.obj_height (p : Ppu) : Nat := if p.LCD_control &&& (1 <<< 2) > 0 then 16 else 8
def Ppu.obj_enable (p : Ppu) : Bool := p.LCD_control &&& (1 <<< 1) > 0

def Ppu.disable_lcd (p : Ppu) : Ppu := { p with LCD_control := p.LCD_control &&& 0x7F }

def Ppu.turn_lcd_off (p : Ppu) : Ppu := p.disable_lcd

def Ppu.get_from_vram (p : Ppu) (address : Nat) : Nat := p.vram (address - VRAM_START)

/-- `bg_bit_into_color` of ppu.rs; panics on a value above 3. -/
def bg_bit_into_color (bit : Nat) : Option Nat :=
  if bit = 0b00 then some 0xffffff
  else if bit = 0b01 then some 0x505151
  else if bit = 0b10 then some 0x838484
  else if bit = 0b11 then some 0
  else none

/-- `Ppu::draw_tile`: updates the 8x8 background-buffer area from a tile. -/
def Ppu.draw_tile (p : Ppu) (buffer_start_row_pixel buffer_start_column_pixel tile_addr : Nat) :
    Ppu :=
  (List.range 8).foldl (fun p i =>
    let buffer_row := buffer_start_row_pixel + i
    let byte1 := p.get_from_vram (tile_addr + i * 2)
    let byte2 := p.get_from_vram (tile_addr + i * 2 + 1)
    (List.range 8).foldl (fun p j =>
      let buffer_col := buffer_start_column_pixel + j
      let color := ((byte1 >>> (7 - j)) &&& 1) ||| (((byte2 >>> (7 - j)) &&& 1) <<< 1)
      { p with buffer := Function.update p.buffer (buffer_row * PPU_WIDTH + buffer_col) color })
      p) p

/-- `Ppu::update_bg_tile`.  The signed-index branch computes
`(0x9000_i16 + tile_data_nr_i16 * 16) as u16` on the 16-bit bit pattern. -/
def Ppu.update_bg_tile (p : Ppu) (map_addr : Nat) (tile_data_nr : Nat) : Ppu :=
  let tile_size := 16
  let tile_data_start := p.bg_window_tile_data
  let tile_addr :=
    if tile_data_start = 0x8800 then
      (0x9000 + sext8 tile_data_nr * tile_size) % 0x10000
    else
      tile_data_start + tile_data_nr * tile_size
  let tile_map_nr := map_addr - p.bg_tile_map_address
  let buffer_start_row_pixel := (tile_map_nr / 32) * 8
  let buffer_start_column_pixel := (tile_map_nr % 32) * 8
  p.draw_tile buffer_start_row_pixel buffer_start_column_pixel tile_addr

def Ppu.is_addr_in_bg_map (p : Ppu) (address : Nat) : Bool :=
  if p.bg_tile_map_address = 0x9800 then
    address ≥ 0x9800 && address < 0x9BFF
  else
    address ≥ 0x9C00 && address < 0x9FFF

/-- `Ppu::read_vram` (the PixelTransfer early-return is commented out in the
source). -/
def Ppu.read_vram (p : Ppu) (address : Nat) : Nat := p.vram (address - VRAM_START)

/-- `Ppu::write_vram` (the PixelTransfer early-return is commented out in the
source). -/
def Ppu.write_vram (p : Ppu) (address value : Nat) : Ppu :=
  let vram_address := address - VRAM_START
  let p := { p with vram := Function.update p.vram vram_address value }
  if p.is_addr_in_bg_map address then p.update_bg_tile address value else p

def Ppu.read_sprite_mem (p : Ppu) (address : Nat) : Nat :=
  p.sprite_memory (address - SPRITE_MEM_START)

def Ppu.write_sprite_mem (p : Ppu) (address value : Nat) : Ppu :=
  { p with sprite_memory := Function.update p.sprite_memory (address - SPRITE_MEM_START) value }

/-- `Ppu::read` over the LCD register ports. -/
def Ppu.read (p : Ppu) (address : Nat) : Option Nat :=
  if address = 0xFF40 then some p.LCD_control
  else if address = 0xFF41 then some p.LCDC_status
  else if address = 0xFF42 then some p.scy
  else if address = 0xFF43 then some p.scx
  else if address = 0xFF44 then some p.ly
  else if address = 0xFF45 then some p.lyc
  else if address = 0xFF47 then some p.bgp
  else if address = 0xFF48 then some p.obp0
  else if address = 0xFF49 then some p.obp1
  else if address = 0xFF4A then some p.wy
  else if address = 0xFF4B then some p.wx
  else none

/-- `Ppu::write` over the LCD register ports; the returned `Bool` is the
handled flag.  Writing `0xFF44` resets `ly` to 154 and forces VBlank. -/
def Ppu.write (p : Ppu) (address value : Nat) : Bool × Ppu :=
  if address = 0xFF40 then (true, { p with LCD_control := value })
  else if address = 0xFF41 then (true, { p with LCDC_status := value })
  else if address = 0xFF42 then (true, { p with scy := value })
  else if address = 0xFF43 then (true, { p with scx := value })
  else if address = 0xFF44 then (true, { p with ly := 154, state := PpuState.VBlank })
  else if address = 0xFF45 then (true, { p with lyc := value })
  else if address = 0xFF47 then (true, { p with bgp := value })
  else if address = 0xFF48 then (true, { p with obp0 := value })
  else if address = 0xFF49 then (true, { p with obp1 := value })
  else if address = 0xFF4A then (true, { p with wy := value })
  else if address = 0xFF4B then (true, { p with wx := value })
  else (false, p)

/-- `struct Sprite` of ppu.rs. -/
structure Sprite where
  y : Nat
  x : Nat
  tile_nr : Nat
  above_bg : Bool
  y_flip : Bool
  x_flip : Bool
  palette_nr : Nat
  tile_vram_bank : Nat

/-- `create_sprite` of ppu.rs; the `- 16` / `- 8` are wrapping u8 subtractions. -/
def create_sprite (oam_mem : Nat → Nat) (address : Nat) (cgb_mode : Bool) : Sprite :=
  { y := (oam_mem address + 256 - 16) % 256
    x := (oam_mem (address + 1) + 256 - 8) % 256
    tile_nr := oam_mem (address + 2)
    above_bg := !check_bit (oam_mem (address + 3)) 7
    y_flip := check_bit (oam_mem (address + 3)) 6
    x_flip := check_bit (oam_mem (address + 3)) 5
    palette_nr := oam_mem (address + 3) &&& (if cgb_mode then 0x07 else 0x10)
    tile_vram_bank := oam_mem (address + 3) &&& 0x08 }

/-- `Ppu::draw_background`; a viewport-buffer index out of range is the
Rust slice-index panic. -/
def Ppu.draw_background (p : Ppu) : Option Ppu :=
  let line := (p.ly + p.scy) % VIEWPORT_HEIGHT
  let column := p.scx
  (List.range VIEWPORT_WIDTH).foldlM (fun (p : Ppu) i => do
    let color := p.buffer (line * PPU_WIDTH + (column + i) % PPU_WIDTH)
    let pixel ← bg_bit_into_color color
    let idx := p.ly * VIEWPORT_WIDTH + i
    if idx < VIEWPORT_WIDTH * VIEWPORT_HEIGHT then
      some { p with viewport_buffer := Function.update p.viewport_buffer idx pixel }
    else none) p

/-- Inner pixel loop of `Ppu::draw_sprites` for one 8-pixel sprite line. -/
def Ppu.draw_sprite_line (p : Ppu) (sx byte1 byte2 : Nat) : Option Ppu :=
  (List.range 8).foldlM (fun (p : Ppu) j => do
    let buffer_col := (sx + j) % 256
    if buffer_col > VIEWPORT_WIDTH then
      some p
    else
      let color := ((byte1 >>> (7 - j)) &&& 1) ||| (((byte2 >>> (7 - j)) &&& 1) <<< 1)
      if color = 0 then
        some p
      else
        let pixel ← bg_bit_into_color color
        let idx := p.ly * VIEWPORT_WIDTH + buffer_col
        if idx < VIEWPORT_WIDTH * VIEWPORT_HEIGHT then
          some { p with viewport_buffer := Function.update p.viewport_buffer idx pixel }
        else none) p

/-- `Ppu::draw_sprites` (sprite height 16 is not implemented in the source). -/
def Ppu.draw_sprites (p : Ppu) : Option Ppu :=
  if !p.obj_enable then some p
  else
    let sprite_height := p.obj_height
    (List.range 40).foldlM (fun (p : Ppu) k => do
      let sprite := create_sprite p.sprite_memory (k * 4) false
      if p.ly < sprite.y || p.ly ≥ (sprite.y + sprite_height) % 256 then
        some p
      else
        let line_to_draw := p.ly - sprite.y
        if sprite_height = 8 then
          let bytes_to_skip := line_to_draw * 2
          let tile_addr := 0x8000 + sprite.tile_nr * 16
          let byte1 := p.get_from_vram (tile_addr + bytes_to_skip)
          let byte2 := p.get_from_vram (tile_addr + bytes_to_skip + 1)
          p.draw_sprite_line sprite.x byte1 byte2
        else
          some p) p

/-- `Ppu::pixel_transfer`. -/
def Ppu.pixel_transfer (p : Ppu) : Option Ppu :=
  if !p.lcd_display_enabled then some p
  else do
    let p ← p.draw_background
    p.draw_sprites

/-- `Ppu::update`: one PPU tick; the returned `Bool` signals a VBlank
interrupt.  `ly` increments are wrapping u8 additions; the host-window
buffer flip on line 145 is omitted. -/
def Ppu.update (p : Ppu) : Option (Bool × Ppu) :=
  if p.cycles > 0 then
    some (false, { p with cycles := p.cycles - 1 })
  else
    match p.state with
    | PpuState.OAMSearch =>
        some (false, { p with cycles := 20, state := PpuState.PixelTransfer,
                              LCDC_status := p.LCDC_status ||| 0b11 })
    | PpuState.PixelTransfer => do
        let p := { p with cycles := 43 }
        let p ← p.pixel_transfer
        some (false, { p with state := PpuState.HBlank,
                              LCDC_status := p.LCDC_status &&& 0xFC })
    | PpuState.HBlank =>
        let p := { p with cycles := 51, ly := (p.ly + 1) % 256 }
        if p.ly = 144 then
          some (false, { p with LCDC_status := (p.LCDC_status &&& 0xFC) ||| 0b01,
                                state := PpuState.VBlank })
        else
          some (false, { p with LCDC_status := (p.LCDC_status &&& 0xFC) ||| 0b10,
                                state := PpuState.OAMSearch })
    | PpuState.VBlank =>
        let p := { p with ly := (p.ly + 1) % 256, cycles := 114 }
        let p :=
          if p.ly = 154 then
            { p with ly := 0, LCDC_status := (p.LCDC_status &&& 0xFC) ||| 0b10,
                     state := PpuState.OAMSearch }
          else p
        if p.ly = 145 then some (true, p) else some (false, p)

def Ppu.add_cycles (p : Ppu) (c : Int) : Ppu := { p with cycles := p.cycles + c }

/-! ## SoundSubsystem (sound_subsystem.rs) -/

/-- `struct SoundSubsystem` of sound_subsystem.rs. -/
structure SoundSubsystem where
  NR11 : Nat
  NR12 : Nat
  NR13 : Nat
  NR14 : Nat
  NR50 : Nat
  NR51 : Nat
  NR52 : Nat

def SoundSubsystem.new : SoundSubsystem :=
  { NR11 := 0, NR12 := 0, NR13 := 0, NR14 := 0, NR50 := 0, NR51 := 0, NR52 := 0 }

def SoundSubsystem.write (s : SoundSubsystem) (address value : Nat) : Bool × SoundSubsystem :=
  if address = 0xFF11 then (true, { s with NR11 := value })
  else if address = 0xFF12 then (true, { s with NR12 := value })
  else if address = 0xFF13 then (true, { s with NR13 := value })
  else if address = 0xFF14 then (true, { s with NR14 := value })
  else if address = 0xFF24 then (true, { s with NR50 := value })
  else if address = 0xFF25 then (true, { s with NR51 := value })
  else if address = 0xFF26 then (true, { s with NR52 := value })
  else (false, s)

def SoundSubsystem.read (s : SoundSubsystem) (address : Nat) : Option Nat :=
  if address = 0xFF11 then some s.NR11
  else if address = 0xFF12 then some s.NR12
  else if address = 0xFF13 then some s.NR13
  else if address = 0xFF14 then some s.NR14
  else if address = 0xFF24 then some s.NR50
  else if address = 0xFF25 then some s.NR51
  else if address = 0xFF26 then some s.NR52
  else none

/-! ## Timer (timer.rs) -/

/-- `struct Timer` of timer.rs (only the bus-visible register contract is
exercised by the interconnect embedded here). -/
structure Timer where
  main : Nat
  sub : Nat
  cl_div : Nat
  div : Nat
  tima : Nat
  tma : Nat
  tac : Nat
  div_counter : Nat
  tima_counter : Nat

def Timer.new : Timer :=
  { main := 0, sub := 0, cl_div := 0, div := 0, tima := 0, tma := 0, tac := 0,
    div_counter := 0, tima_counter := 0 }

def Timer.write (t : Timer) (address value : Nat) : Bool × Timer :=
  if address = 0xFF04 then (true, { t with div := 0 })
  else if address = 0xFF05 then (true, { t with tima := value })
  else if address = 0xFF06 then (true, { t with tma := value })
  else if address = 0xFF07 then (true, { t with tac := value })
  else (false, t)

def Timer.read (t : Timer) (address : Nat) : Option Nat :=
  if address = 0xFF04 then some t.div
  else if address = 0xFF05 then some t.tima
  else if address = 0xFF06 then some t.tma
  else if address = 0xFF07 then some t.tac
  else none

/-! ## Interconnect (interconnect.rs) -/

/-- `enum Interrupt` of interconnect.rs; the discriminant is the priority. -/
inductive Interrupt where
  | VBLANK
  | LCDStatus
  | TimerOverflow
  | SerialTransfer
  | Joypad
deriving DecidableEq, Repr

/-- `Interrupt::from_u8` (derived by enum_primitive). -/
def Interrupt.from_u8 (i : Nat) : Option Interrupt :=
  if i = 0 then some Interrupt.VBLANK
  else if i = 1 then some Interrupt.LCDStatus
  else if i = 2 then some Interrupt.TimerOverflow
  else if i = 3 then some Interrupt.SerialTransfer
  else if i = 4 then some Interrupt.Joypad
  else none

/-- `enum MemoryModel` of interconnect.rs. -/
inductive MemoryModel where
  | ROM16M_RAM8K
  | ROM4M_RAM32K
deriving DecidableEq, Repr

/-- `struct Interconnect` of interconnect.rs.  `rom` and `boot` are
`Vec<u8>` (length-carrying); the fixed-size boxed slices are index
functions. -/
structure Interconnect where
  rom : ByteVec
  boot : ByteVec
  internal_ram2 : Nat → Nat
  ram_bank : Nat → Nat
  internal_ram : Nat → Nat
  rom_bank_nr : Nat
  ram_bank_nr : Nat
  memory_model : MemoryModel
  ppu : Ppu
  sound : SoundSubsystem
  timer : Timer
  interrupt_flag : Nat
  interrupt_enable : Nat
  ram_bank_write_enable : Bool
  booting : Bool

/-- `Interconnect::new`. -/
def Interconnect.new (boot rom : ByteVec) : Interconnect :=
  { rom := rom
    boot := boot
    internal_ram2 := fun _ => 0
    ram_bank := fun _ => 0
    internal_ram := fun _ => 0
    rom_bank_nr := 1
    ppu := Ppu.new
    sound := SoundSubsystem.new
    timer := Timer.new
    memory_model := MemoryModel.ROM16M_RAM8K
    interrupt_flag := 0
    interrupt_enable := 0
    ram_bank_write_enable := true
    booting := true
    ram_bank_nr := 0 }

/-- `Interconnect::write_mem`, with the match arms in source order.  The
final `panic!` arm (reachable only for an address outside the 16-bit
space) is `none`; the `println!`-only arms leave the state unchanged. -/
def Interconnect.write_mem (ic : Interconnect) (address value : Nat) : Option Interconnect :=
  if ENABLE_RAM_BANK_START ≤ address ∧ address < ENABLE_RAM_BANK_END then
    some { ic with ram_bank_write_enable := value = 0xA }
  else if CHOOSE_MEMORY_MODE_START ≤ address ∧ address < CHOOSE_MEMORY_MODE_END then
    let value := value &&& 0b1
    if value = 1 then some { ic with memory_model := MemoryModel.ROM4M_RAM32K }
    else some { ic with memory_model := MemoryModel.ROM16M_RAM8K }
  else if CHOOSE_ROM_BANK_START ≤ address ∧ address < CHOOSE_ROM_BANK_END then
    let value := if value = 0 then 1 else value
    let value := value &&& 0b00011111
    some { ic with rom_bank_nr := value }
  else if CHOOSE_RAM_BANK_START ≤ address ∧ address < CHOOSE_RAM_BANK_END then
    some { ic with ram_bank_nr := value &&& 0b11 }
  else if address = 0xFF50 then
    some { ic with booting := false }
  else if VRAM_START ≤ address ∧ address < VRAM_END then
    some { ic with ppu := ic.ppu.write_vram address value }
  else if IO_PORTS_START ≤ address ∧ address < IO_PORTS_END then
    let (handled, p) := ic.ppu.write address value
    if handled then some { ic with ppu := p }
    else
      let (handled, s) := ic.sound.write address value
      if handled then some { ic with sound := s }
      else
        let (handled, t) := ic.timer.write address value
        if handled then some { ic with timer := t }
        else if address = 0xFF0F then some { ic with interrupt_flag := value }
        else some ic
  else if INTERNAL_RAM_START ≤ address ∧ address < INTERNAL_RAM_END then
    some { ic with internal_ram :=
      Function.update ic.internal_ram (address - INTERNAL_RAM_START) value }
  else if ECHO_RAM_START ≤ address ∧ address < ECHO_RAM_END then
    some { ic with internal_ram :=
      Function.update ic.internal_ram (address - ECHO_RAM_START) value }
  else if INTERNAL_RAM2_START ≤ address ∧ address < INTERNAL_RAM2_END then
    some { ic with internal_ram2 :=
      Function.update ic.internal_ram2 (address - INTERNAL_RAM2_START) value }
  else if SWITCH_RAM_BANK_START ≤ address ∧ address < SWITCH_RAM_BANK_END then
    some { ic with ram_bank :=
      (Function.update ic.ram_bank
        (ic.ram_bank_nr * SWITCH_RAM_BANK_LENGTH + (address - SWITCH_RAM_BANK_START)) value) }
  else if SPRITE_MEM_START ≤ address ∧ address < SPRITE_MEM_END then
    some { ic with ppu := ic.ppu.write_sprite_mem address value }
  else if address = INTERRUPT_REGISTER then
    some { ic with interrupt_enable := value }
  else if 0xFEA0 ≤ address ∧ address ≤ 0xFEFF then
    some ic
  else if IO_PORTS_END ≤ address ∧ address ≤ 0xFF7F then
    some ic
  else none

/-- `Interconnect::read_mem`, with the match arms in source order.  The
boot-ROM overlay is checked first; the `expect`/`panic!` arms are `none`.
Reading `0xFFFF` returns `0xFF` (the source discards `interrupt_enable`),
and the unusable area `0xFEA0..=0xFEFF` reads as `0xFF`. -/
def Interconnect.read_mem (ic : Interconnect) (address : Nat) : Option Nat :=
  if ic.booting ∧ address ≤ 0xFF then
    ic.boot.get? address
  else if VRAM_START ≤ address ∧ address < VRAM_END then
    some (ic.ppu.read_vram address)
  else if IO_PORTS_START ≤ address ∧ address < IO_PORTS_END then
    match ic.ppu.read address with
    | some ret => some ret
    | none =>
      match ic.sound.read address with
      | some ret => some ret
      | none =>
        match ic.timer.read address with
        | some ret => some ret
        | none => if address = 0xFF0F then some ic.interrupt_flag else some 0xFF
  else if ROM_BANK0_START ≤ address ∧ address < ROM_BANK0_END then
    ic.rom.get? (address - ROM_BANK0_START)
  else if SWITCH_ROM_BANK_START ≤ address ∧ address < SWITCH_ROM_BANK_END then
    ic.rom.get? (ic.rom_bank_nr * 16000 + (address - SWITCH_ROM_BANK_START))
  else if INTERNAL_RAM_START ≤ address ∧ address < INTERNAL_RAM_END then
    some (ic.internal_ram (address - INTERNAL_RAM_START))
  else if ECHO_RAM_START ≤ address ∧ address < ECHO_RAM_END then
    some (ic.internal_ram (address - ECHO_RAM_START))
  else if INTERNAL_RAM2_START ≤ address ∧ address < INTERNAL_RAM2_END then
    some (ic.internal_ram2 (address - INTERNAL_RAM2_START))
  else if SWITCH_RAM_BANK_START ≤ address ∧ address < SWITCH_RAM_BANK_END then
    some (ic.ram_bank (ic.ram_bank_nr * SWITCH_RAM_BANK_LENGTH
      + (address - SWITCH_RAM_BANK_START)))
  else if SPRITE_MEM_START ≤ address ∧ address < SPRITE_MEM_END then
    some (ic.ppu.read_sprite_mem address)
  else if address = INTERRUPT_REGISTER then
    some 0xFF
  else if 0xFEA0 ≤ address ∧ address ≤ 0xFEFF then
    some 0xFF
  else none

/-- `Interconnect::get_interrupt`: the first (lowest-index) source that is
both requested and enabled is returned and its request bit cleared; the
returned interconnect is unchanged when no source is pending. -/
def Interconnect.get_interrupt (ic : Interconnect) : Option Interrupt × Interconnect :=
  match (List.range 5).find? (fun i =>
      check_bit ic.interrupt_flag i && check_bit ic.interrupt_enable i) with
  | some i =>
      (Interrupt.from_u8 i,
       { ic with interrupt_flag := ic.interrupt_flag &&& ((1 <<< i) ^^^ 0xFF) })
  | none => (none, ic)

/-- `Interconnect::update`: ticks the PPU and raises the VBlank request
bit when the PPU signals it. -/
def Interconnect.update (ic : Interconnect) : Option Interconnect := do
  let (vblank, p) ← ic.ppu.update
  if vblank then
    some { ic with ppu := p, interrupt_flag := ic.interrupt_flag ||| 1 }
  else
    some { ic with ppu := p }

/-! ## The stale decode table shipped in src/src/instruction.rs

The `instruction.rs` revision in src is older than `cpu.rs`: its enums are
payload-free and its `parse_cb` recognises only the BIT / RL / SWAP
families, returning `None` elsewhere, while `cpu.rs` pattern-matches a
payload-carrying decoder with the full CB family.  The table below embeds
the file exactly as it stands in src. -/

namespace instruction

/-- `enum CB_Instruction` of src/src/instruction.rs (the stale revision:
only three variants). -/
inductive CB_Instruction where
  | BIT_b_r (b r : Nat)
  | RL_n (n : Nat)
  | SWAP_n (n : Nat)
deriving DecidableEq, Repr

/-- `parse_cb` of src/src/instruction.rs, exactly as in the source: BIT
for `0x40..=0x7F`, RL for `0x10..=0x17`, SWAP for `0x30..=0x37`, and
`None` for every other byte (in particular all of `0x80..=0xFF`). -/
def parse_cb (byte : Nat) : Option CB_Instruction :=
  if 0x40 ≤ byte ∧ byte ≤ 0x7F then
    let byte := byte - 0x40
    some (CB_Instruction.BIT_b_r (byte / 8) (byte % 8))
  else if 0x10 ≤ byte ∧ byte ≤ 0x17 then
    some (CB_Instruction.RL_n (byte - 0x10))
  else if 0x30 ≤ byte ∧ byte ≤ 0x37 then
    some (CB_Instruction.SWAP_n (byte - 0x30))
  else
    none

end instruction

/-! ## Cpu (cpu.rs) -/

/-- `enum CpuState` of cpu.rs. -/
inductive CpuState where
  | On
  | OffUntilInterrupt
  | OffUntilButtonPress
deriving DecidableEq, Repr

/-- The decoded-instruction type `cpu.rs` pattern-matches on: the tagged,
payload-carrying variants of its `match instr` arms. -/
inductive Instruction where
  | LD_r1_r2 (r1 r2 : Nat)
  | LD_r1_n (r1 : Nat)
  | LD_A_nnptr
  | LD_nnptr_A
  | LD_A_Cptr
  | LD_Cptr_A
  | LDD_A_HLptr
  | LDD_HLptr_A
  | LDI_A_HLptr
  | LDI_HLptr_A
  | LDH_nptr_A
  | LDH_A_nptr
  | LD_rr_nn
  | LD_SP_HL
  | LDHL_SPn
  | LD_nn_SP
  | PUSH_nn
  | POP_nn
  | ADD_n (n : Nat)
  | ADC_n (n : Nat)
  | SUB_n (n : Nat)
  | SBC_n (n : Nat)
  | AND_n (n : Nat)
  | OR_n (n : Nat)
  | XOR_n (n : Nat)
  | CP_n (n : Nat)
  | INC_n (r : Nat)
  | DEC_n (r : Nat)
  | ADD_HL_nn (nn : Nat)
  | ADD_SP_n
  | INC_nn (nn : Nat)
  | DEC_nn (nn : Nat)
  | CPL
  | CCF
  | SCF
  | NOP
  | HALT
  | STOP
  | DI
  | EI
  | RLCA
  | RLA
  | RRCA
  | RRA
  | JP_nn
  | JP_cc_nn (cc : Nat)
  | JP_HLptr
  | JR_n
  | JR_cc_n (cc : Nat)
  | CALL_nn
  | CALL_cc_nn (cc : Nat)
  | RST_n (n : Nat)
  | RET
  | RET_cc (cc : Nat)
  | RETI
  | DAA
  | CB

/-- The CB-prefixed instruction type `cpu.rs` pattern-matches on in
`handle_cb_opcode` (the full bit / rotate / shift family). -/
inductive CB_Instruction where
  | BIT_b_r (b r : Nat)
  | SET_b_r (b r : Nat)
  | RES_b_r (b r : Nat)
  | RL_n (n : Nat)
  | RLC_n (n : Nat)
  | SLA_n (n : Nat)
  | RRC_n (n : Nat)
  | SRA_n (n : Nat)
  | SRL_n (n : Nat)
  | RR_n (n : Nat)
  | SWAP_n (n : Nat)

/-- Modelled from the spec: the payload-carrying primary decoder that
`cpu.rs` calls as `instruction::parse` is not in src (src's
`instruction.rs` is a stale revision returning payload-free tags).  The
table is reconstructed from the spec §4.1 ("maps each of 256 primary
opcodes to a tagged instruction variant ... by opcode ranges") together
with the opcode ranges of src's `parse` and the operand-selector-bit
convention of spec §3 (3-bit register index `8` meaning an immediate
operand, 2-bit register-pair and condition-code indices). -/
def parse (byte : Nat) : Option Instruction :=
  if byte < 0x40 ∧ byte &&& 7 = 6 then some (Instruction.LD_r1_n ((byte >>> 3) &&& 7))
  else if byte = 0x76 then some Instruction.HALT
  else if 0x40 ≤ byte ∧ byte < 0x80 then
    some (Instruction.LD_r1_r2 ((byte >>> 3) &&& 7) (byte &&& 7))
  else if byte = 0x0A ∨ byte = 0x1A ∨ byte = 0xFA then some Instruction.LD_A_nnptr
  else if byte = 0x02 ∨ byte = 0x12 ∨ byte = 0xEA then some Instruction.LD_nnptr_A
  else if byte = 0xF2 then some Instruction.LD_A_Cptr
  else if byte = 0xE2 then some Instruction.LD_Cptr_A
  else if byte = 0x3A then some Instruction.LDD_A_HLptr
  else if byte = 0x32 then some Instruction.LDD_HLptr_A
  else if byte = 0x2A then some Instruction.LDI_A_HLptr
  else if byte = 0x22 then some Instruction.LDI_HLptr_A
  else if byte = 0xE0 then some Instruction.LDH_nptr_A
  else if byte = 0xF0 then some Instruction.LDH_A_nptr
  else if byte = 0x01 ∨ byte = 0x11 ∨ byte = 0x21 ∨ byte = 0x31 then some Instruction.LD_rr_nn
  else if byte = 0xF9 then some Instruction.LD_SP_HL
  else if byte = 0xF8 then some Instruction.LDHL_SPn
  else if byte = 0x08 then some Instruction.LD_nn_SP
  else if byte = 0xF5 ∨ byte = 0xC5 ∨ byte = 0xD5 ∨ byte = 0xE5 then some Instruction.PUSH_nn
  else if byte = 0xF1 ∨ byte = 0xC1 ∨ byte = 0xD1 ∨ byte = 0xE1 then some Instruction.POP_nn
  else if 0x80 ≤ byte ∧ byte < 0x88 then some (Instruction.ADD_n (byte - 0x80))
  else if byte = 0xC6 then some (Instruction.ADD_n 8)
  else if 0x88 ≤ byte ∧ byte < 0x90 then some (Instruction.ADC_n (byte - 0x88))
  else if byte = 0xCE then some (Instruction.ADC_n 8)
  else if 0x90 ≤ byte ∧ byte < 0x98 then some (Instruction.SUB_n (byte - 0x90))
  else if byte = 0xD6 then some (Instruction.SUB_n 8)
  else if 0x98 ≤ byte ∧ byte < 0xA0 then some (Instruction.SBC_n (byte - 0x98))
  else if byte = 0xDE then some (Instruction.SBC_n 8)
  else if 0xA0 ≤ byte ∧ byte < 0xA8 then some (Instruction.AND_n (byte - 0xA0))
  else if byte = 0xE6 then some (Instruction.AND_n 8)
  else if 0xA8 ≤ byte ∧ byte < 0xB0 then some (Instruction.XOR_n (byte - 0xA8))
  else if byte = 0xEE then some (Instruction.XOR_n 8)
  else if 0xB0 ≤ byte ∧ byte < 0xB8 then some (Instruction.OR_n (byte - 0xB0))
  else if byte = 0xF6 then some (Instruction.OR_n 8)
  else if 0xB8 ≤ byte ∧ byte < 0xC0 then some (Instruction.CP_n (byte - 0xB8))
  else if byte = 0xFE then some (Instruction.CP_n 8)
  else if byte < 0x40 ∧ byte &&& 7 = 4 then some (Instruction.INC_n ((byte >>> 3) &&& 7))
  else if byte < 0x40 ∧ byte &&& 7 = 5 then some (Instruction.DEC_n ((byte >>> 3) &&& 7))
  else if byte = 0x09 ∨ byte = 0x19 ∨ byte = 0x29 ∨ byte = 0x39 then
    some (Instruction.ADD_HL_nn ((byte >>> 4) &&& 3))
  else if byte = 0xE8 then some Instruction.ADD_SP_n
  else if byte = 0x03 ∨ byte = 0x13 ∨ byte = 0x23 ∨ byte = 0x33 then
    some (Instruction.INC_nn ((byte >>> 4) &&& 3))
  else if byte = 0x0B ∨ byte = 0x1B ∨ byte = 0x2B ∨ byte = 0x3B then
    some (Instruction.DEC_nn ((byte >>> 4) &&& 3))
  else if byte = 0x2F then some Instruction.CPL
  else if byte = 0x3F then some Instruction.CCF
  else if byte = 0x37 then some Instruction.SCF
  else if byte = 0x00 then some Instruction.NOP
  else if byte = 0x10 then some Instruction.STOP
  else if byte = 0xF3 then some Instruction.DI
  else if byte = 0xFB then some Instruction.EI
  else if byte = 0x07 then some Instruction.RLCA
  else if byte = 0x17 then some Instruction.RLA
  else if byte = 0x0F then some Instruction.RRCA
  else if byte = 0x1F then some Instruction.RRA
  else if byte = 0xC3 then some Instruction.JP_nn
  else if byte = 0xC2 ∨ byte = 0xCA ∨ byte = 0xD2 ∨ byte = 0xDA then
    some (Instruction.JP_cc_nn ((byte >>> 3) &&& 3))
  else if byte = 0xE9 then some Instruction.JP_HLptr
  else if byte = 0x18 then some Instruction.JR_n
  else if byte = 0x20 ∨ byte = 0x28 ∨ byte = 0x30 ∨ byte = 0x38 then
    some (Instruction.JR_cc_n ((byte >>> 3) &&& 3))
  else if byte = 0xCD then some Instruction.CALL_nn
  else if byte = 0xC4 ∨ byte = 0xCC ∨ byte = 0xD4 ∨ byte = 0xDC then
    some (Instruction.CALL_cc_nn ((byte >>> 3) &&& 3))
  else if 0xC0 ≤ byte ∧ byte ≤ 0xFF ∧ byte &&& 7 = 7 then some (Instruction.RST_n (byte &&& 0x38))
  else if byte = 0xC9 then some Instruction.RET
  else if byte = 0xC0 ∨ byte = 0xC8 ∨ byte = 0xD0 ∨ byte = 0xD8 then
    some (Instruction.RET_cc ((byte >>> 3) &&& 3))
  else if byte = 0xD9 then some Instruction.RETI
  else if byte = 0x27 then some Instruction.DAA
  else if byte = 0xCB then some Instruction.CB
  else none

/-- Modelled from the spec: the total CB decoder matched by
`handle_cb_opcode` of cpu.rs (its source file is not in src; src's
`instruction.rs` is the stale revision embedded above as
`instruction.parse_cb`).  The layout is the spec §4.1 CB family
("bit-test/set/reset and rotate/shift-by-register family", total over
0-255): eight rotate/shift rows of eight registers each below `0x40`,
then BIT / RES / SET quarters with a 3-bit bit index and 3-bit register
index. -/
def parse_cb_full (byte : Nat) : CB_Instruction :=
  if byte < 0x08 then CB_Instruction.RLC_n byte
  else if byte < 0x10 then CB_Instruction.RRC_n (byte - 0x08)
  else if byte < 0x18 then CB_Instruction.RL_n (byte - 0x10)
  else if byte < 0x20 then CB_Instruction.RR_n (byte - 0x18)
  else if byte < 0x28 then CB_Instruction.SLA_n (byte - 0x20)
  else if byte < 0x30 then CB_Instruction.SRA_n (byte - 0x28)
  else if byte < 0x38 then CB_Instruction.SWAP_n (byte - 0x30)
  else if byte < 0x40 then CB_Instruction.SRL_n (byte - 0x38)
  else if byte < 0x80 then CB_Instruction.BIT_b_r ((byte - 0x40) / 8) ((byte - 0x40) % 8)
  else if byte < 0xC0 then CB_Instruction.RES_b_r ((byte - 0x80) / 8) ((byte - 0x80) % 8)
  else CB_Instruction.SET_b_r ((byte - 0xC0) / 8) ((byte - 0xC0) % 8)

/-- `struct Cpu` of cpu.rs.  The debug fields `print_instructions` and
`console_tx` only drive console output and are omitted. -/
structure Cpu where
  reg_a : Nat
  reg_b : Nat
  reg_c : Nat
  reg_d : Nat
  reg_e : Nat
  reg_f : Nat
  reg_h : Nat
  reg_l : Nat
  reg_sp : Nat
  reg_pc : Nat
  flag_z : Bool
  flag_n : Bool
  flag_h : Bool
  flag_c : Bool
  flag_ime : Bool
  flag_disabling_interrupts : Bool
  flag_enabling_interrupts : Bool
  interconnect : Interconnect
  cycles : Int
  cpu_state : CpuState

/-- `Cpu::new`. -/
def Cpu.new (interconnect : Interconnect) : Cpu :=
  { reg_a := 0, reg_b := 0, reg_c := 0, reg_d := 0, reg_e := 0, reg_f := 0,
    reg_h := 0, reg_l := 0, reg_sp := 0, reg_pc := 0,
    flag_z := false, flag_n := false, flag_h := false, flag_c := false,
    flag_ime := false, flag_disabling_interrupts := false, flag_enabling_interrupts := false,
    interconnect := interconnect, cycles := 0, cpu_state := CpuState.On }

def Cpu.add_cycles (c : Cpu) (amount : Int) : Cpu := { c with cycles := c.cycles + amount }

def Cpu.af (c : Cpu) : Nat := u8s_as_u16 (c.reg_a, c.reg_f)
def Cpu.bc (c : Cpu) : Nat := u8s_as_u16 (c.reg_b, c.reg_c)
def Cpu.de (c : Cpu) : Nat := u8s_as_u16 (c.reg_d, c.reg_e)
def Cpu.hl (c : Cpu) : Nat := u8s_as_u16 (c.reg_h, c.reg_l)

def Cpu.set_af (c : Cpu) (val : Nat) : Cpu :=
  let hl := u16_as_u8s val
  { c with reg_a := hl.1, reg_f := hl.2 }

def Cpu.set_bc (c : Cpu) (val : Nat) : Cpu :=
  let hl := u16_as_u8s val
  { c with reg_b := hl.1, reg_c := hl.2 }

def Cpu.set_de (c : Cpu) (val : Nat) : Cpu :=
  let hl := u16_as_u8s val
  { c with reg_d := hl.1, reg_e := hl.2 }

def Cpu.set_hl (c : Cpu) (val : Nat) : Cpu :=
  let hl := u16_as_u8s val
  { c with reg_h := hl.1, reg_l := hl.2 }

/-- `Cpu::read_mem`: charges 4 cycles and reads through the interconnect. -/
def Cpu.read_mem (c : Cpu) (address : Nat) : Option (Nat × Cpu) :=
  let c := c.add_cycles 4
  match c.interconnect.read_mem address with
  | some v => some (v, c)
  | none => none

/-- `Cpu::write_mem`: charges 4 cycles and writes through the interconnect. -/
def Cpu.write_mem (c : Cpu) (address value : Nat) : Option Cpu :=
  let c := c.add_cycles 4
  (c.interconnect.write_mem address value).map fun ic => { c with interconnect := ic }

/-- `Cpu::read_byte`: charges 4 cycles, reads at PC (4 more through
`read_mem`), and post-increments PC (a wrapping u16 increment). -/
def Cpu.read_byte (c : Cpu) : Option (Nat × Cpu) := do
  let c := c.add_cycles 4
  let (ret, c) ← c.read_mem c.reg_pc
  some (ret, { c with reg_pc := (c.reg_pc + 1) % 0x10000 })

/-- `Cpu::read_nn`: two immediate bytes, returned `(second, first)`. -/
def Cpu.read_nn (c : Cpu) : Option ((Nat × Nat) × Cpu) := do
  let (first, c) ← c.read_byte
  let (second, c) ← c.read_byte
  some ((second, first), c)

/-- `Cpu::push_stack`: write at SP, then wrapping-decrement SP. -/
def Cpu.push_stack (c : Cpu) (value : Nat) : Option Cpu := do
  let c ← c.write_mem c.reg_sp value
  some { c with reg_sp := (c.reg_sp + 0xFFFF) % 0x10000 }

/-- `Cpu::push_stack_u16`: high byte first, then low byte. -/
def Cpu.push_stack_u16 (c : Cpu) (value : Nat) : Option Cpu := do
  let fs := u16_as_u8s value
  let c ← c.push_stack fs.1
  c.push_stack fs.2

/-- `Cpu::pop_stack`: wrapping-increment SP first, then read at SP. -/
def Cpu.pop_stack (c : Cpu) : Option (Nat × Cpu) :=
  let c := { c with reg_sp := (c.reg_sp + 1) % 0x10000 }
  c.read_mem c.reg_sp

/-- `Cpu::pop_stack_u16`: low byte first, then high byte. -/
def Cpu.pop_stack_u16 (c : Cpu) : Option (Nat × Cpu) := do
  let (second, c) ← c.pop_stack
  let (first, c) ← c.pop_stack
  some (u8s_as_u16 (first, second), c)

/-- `Cpu::read_reg_r` (index 6 reads memory at HL; an index above 7 is the
source's panic). -/
def Cpu.read_reg_r (c : Cpu) (r : Nat) : Option (Nat × Cpu) :=
  if r = 0 then some (c.reg_b, c)
  else if r = 1 then some (c.reg_c, c)
  else if r = 2 then some (c.reg_d, c)
  else if r = 3 then some (c.reg_e, c)
  else if r = 4 then some (c.reg_h, c)
  else if r = 5 then some (c.reg_l, c)
  else if r = 6 then c.read_mem c.hl
  else if r = 7 then some (c.reg_a, c)
  else none

/-- `Cpu::write_reg_r` (index 6 writes memory at HL). -/
def Cpu.write_reg_r (c : Cpu) (r value : Nat) : Option Cpu :=
  if r = 0 then some { c with reg_b := value }
  else if r = 1 then some { c with reg_c := value }
  else if r = 2 then some { c with reg_d := value }
  else if r = 3 then some { c with reg_e := value }
  else if r = 4 then some { c with reg_h := value }
  else if r = 5 then some { c with reg_l := value }
  else if r = 6 then c.write_mem c.hl value
  else if r = 7 then some { c with reg_a := value }
  else none

/-- `Cpu::check_cc` (a condition code above 3 is the source's
`unreachable!`). -/
def Cpu.check_cc (c : Cpu) (cc : Nat) : Option Bool :=
  if cc = 0 then some (!c.flag_z)
  else if cc = 1 then some c.flag_z
  else if cc = 2 then some (!c.flag_c)
  else if cc = 3 then some c.flag_c
  else none

/-- Operand fetch shared by the eight-member arithmetic/logic arms of
cpu.rs: `if n == 8` an immediate byte is read, otherwise register `n`. -/
def Cpu.arith_operand (c : Cpu) (n : Nat) : Option (Nat × Cpu) :=
  if n = 8 then c.read_byte else c.read_reg_r n

/-- Execution of a decoded CB instruction: the `match inst` arms of
`Cpu::handle_cb_opcode`.  `u8::swap_bytes` (the SWAP arm) is the identity
on a single byte, as in the source. -/
def Cpu.execCB (c : Cpu) (inst : CB_Instruction) : Option Cpu :=
  match inst with
  | CB_Instruction.BIT_b_r b r => do
      let (value, c) ← c.read_reg_r r
      some { c with flag_z := value &&& (1 <<< b) == 0, flag_h := true, flag_n := false }
  | CB_Instruction.SET_b_r b r => do
      let (value, c) ← c.read_reg_r r
      let value := value ||| (1 <<< b)
      c.write_reg_r r value
  | CB_Instruction.RES_b_r b r => do
      let (value, c) ← c.read_reg_r r
      let value := value &&& ((1 <<< b) ^^^ 0xFF)
      c.write_reg_r r value
  | CB_Instruction.RL_n n => do
      let (value, c) ← c.read_reg_r n
      let bit7 := value >>> 7
      let value := (value <<< 1) % 256 + (if c.flag_c then 1 else 0)
      let c := { c with flag_c := bit7 == 1, flag_z := value == 0,
                        flag_n := false, flag_h := false }
      c.write_reg_r n value
  | CB_Instruction.RLC_n n => do
      let (value, c) ← c.read_reg_r n
      let bit7 := value >>> 7
      let value := ((value <<< 1) % 256) ||| bit7
      let c := { c with flag_c := bit7 == 1, flag_z := value == 0,
                        flag_n := false, flag_h := false }
      c.write_reg_r n value
  | CB_Instruction.SLA_n n => do
      let (value, c) ← c.read_reg_r n
      let bit7 := value >>> 7
      let value := (value <<< 1) % 256
      let c := { c with flag_c := bit7 == 1, flag_z := value == 0,
                        flag_n := false, flag_h := false }
      c.write_reg_r n value
  | CB_Instruction.RRC_n n => do
      let (value, c) ← c.read_reg_r n
      let bit0 := value &&& 0b1
      let value := (value >>> 1) ||| (bit0 <<< 7)
      let c := { c with flag_c := bit0 == 1, flag_z := value == 0,
                        flag_n := false, flag_h := false }
      c.write_reg_r n value
  | CB_Instruction.SRA_n n => do
      let (value, c) ← c.read_reg_r n
      let bit0 := value &&& 0b1
      let bit7 := value >>> 7
      let value := (value >>> 1) ||| (bit7 <<< 7)
      let c := { c with flag_c := bit0 == 1, flag_z := value == 0,
                        flag_n := false, flag_h := false }
      c.write_reg_r n value
  | CB_Instruction.SRL_n n => do
      let (value, c) ← c.read_reg_r n
      let bit0 := value &&& 0b1
      let value := value >>> 1
      let c := { c with flag_c := bit0 == 1, flag_z := value == 0,
                        flag_n := false, flag_h := false }
      c.write_reg_r n value
  | CB_Instruction.RR_n n => do
      let (value, c) ← c.read_reg_r n
      let bit0 := value &&& 0b1
      let value := (value >>> 1) ||| ((if c.flag_c then 1 else 0) <<< 7)
      let c := { c with flag_c := bit0 == 1, flag_z := value == 0,
                        flag_n := false, flag_h := false }
      c.write_reg_r n value
  | CB_Instruction.SWAP_n n => do
      let (value, c) ← c.read_reg_r n
      let value := value
      let c := { c with flag_z := value == 0, flag_n := false,
                        flag_h := false, flag_c := false }
      c.write_reg_r n value

/-- `Cpu::handle_cb_opcode`: fetch the CB byte, decode it with the (total)
CB table, charge 4 cycles and execute. -/
def Cpu.handle_cb_opcode (c : Cpu) : Option Cpu := do
  let (opcode, c) ← c.read_byte
  let inst := parse_cb_full opcode
  let c := c.add_cycles 4
  c.execCB inst

/-- Execution of one decoded instruction: the `match instr` arms of
`Cpu::do_next_instrution`.  `opcode` is the already-fetched opcode byte
(several arms re-match on it); a `_ => unreachable!()` inner arm is
`none`. -/
def Cpu.execInstr (c : Cpu) (instr : Instruction) (opcode : Nat) : Option Cpu :=
  match instr with
  | Instruction.LD_r1_r2 r1 r2 => do
      let (value, c) ← c.read_reg_r r2
      c.write_reg_r r1 value
  | Instruction.LD_r1_n r1 => do
      let (value, c) ← c.read_byte
      c.write_reg_r r1 value
  | Instruction.LD_A_nnptr =>
      if opcode = 0x0A then do
        let (v, c) ← c.read_mem c.bc
        some { c with reg_a := v }
      else if opcode = 0x1A then do
        let (v, c) ← c.read_mem c.de
        some { c with reg_a := v }
      else if opcode = 0xFA then do
        let (nn, c) ← c.read_nn
        let address := u8s_as_u16 nn
        let (v, c) ← c.read_mem address
        some { c with reg_a := v }
      else none
  | Instruction.LD_nnptr_A =>
      if opcode = 0x02 then c.write_mem c.bc c.reg_a
      else if opcode = 0x12 then c.write_mem c.de c.reg_a
      else if opcode = 0xEA then do
        let (nn, c) ← c.read_nn
        let address := u8s_as_u16 nn
        c.write_mem address c.reg_a
      else none
  | Instruction.LD_A_Cptr => do
      let address := 0xFF00 + c.reg_c
      let (v, c) ← c.read_mem address
      some { c with reg_a := v }
  | Instruction.LD_Cptr_A =>
      let address := 0xFF00 + c.reg_c
      c.write_mem address c.reg_a
  | Instruction.LDD_A_HLptr => do
      let address := c.hl
      let (v, c) ← c.read_mem address
      let c := { c with reg_a := v }
      some (c.set_hl ((address + 0xFFFF) % 0x10000))
  | Instruction.LDD_HLptr_A => do
      let address := c.hl
      let c ← c.write_mem address c.reg_a
      some (c.set_hl ((address + 0xFFFF) % 0x10000))
  | Instruction.LDI_A_HLptr => do
      let address := c.hl
      let (v, c) ← c.read_mem address
      let c := { c with reg_a := v }
      some (c.set_hl ((address + 1) % 0x10000))
  | Instruction.LDI_HLptr_A => do
      let address := c.hl
      let c ← c.write_mem address c.reg_a
      some (c.set_hl ((address + 1) % 0x10000))
  | Instruction.LDH_nptr_A => do
      let (b, c) ← c.read_byte
      c.write_mem (0xFF00 + b) c.reg_a
  | Instruction.LDH_A_nptr => do
      let (b, c) ← c.read_byte
      let (v, c) ← c.read_mem (0xFF00 + b)
      some { c with reg_a := v }
  | Instruction.LD_rr_nn => do
      let (nn, c) ← c.read_nn
      let value := u8s_as_u16 nn
      if opcode = 0x01 then some (c.set_bc value)
      else if opcode = 0x11 then some (c.set_de value)
      else if opcode = 0x21 then some (c.set_hl value)
      else if opcode = 0x31 then some { c with reg_sp := value }
      else none
  | Instruction.LD_SP_HL =>
      let c := { c with reg_sp := c.hl }
      some (c.add_cycles 4)
  | Instruction.LDHL_SPn => do
      let (b, c) ← c.read_byte
      let n := sext8 b
      let result := (c.reg_sp + n) % 0x10000
      let c := c.set_hl result
      let c := { c with
        flag_z := false
        flag_n := false
        flag_h := (c.reg_sp ^^^ n ^^^ result) &&& 0x10 == 0x10
        flag_c := (c.reg_sp ^^^ n ^^^ result) &&& 0x100 == 0x100 }
      some (c.add_cycles 4)
  | Instruction.LD_nn_SP => do
      let (nn, c) ← c.read_nn
      let c := { c with reg_sp := u8s_as_u16 nn }
      some (c.add_cycles 8)
  | Instruction.PUSH_nn => do
      let c ←
        if opcode = 0xF5 then c.push_stack_u16 c.af
        else if opcode = 0xC5 then c.push_stack_u16 c.bc
        else if opcode = 0xD5 then c.push_stack_u16 c.de
        else if opcode = 0xE5 then c.push_stack_u16 c.hl
        else none
      some (c.add_cycles 12)
  | Instruction.POP_nn => do
      let (value, c) ← c.pop_stack_u16
      let c ←
        if opcode = 0xF1 then some (c.set_af value)
        else if opcode = 0xC1 then some (c.set_bc value)
        else if opcode = 0xD1 then some (c.set_de value)
        else if opcode = 0xE1 then some (c.set_hl value)
        else none
      some (c.add_cycles 8)
  | Instruction.ADD_n n => do
      let (n, c) ← c.arith_operand n
      let result := c.reg_a + n
      let carrybits := (c.reg_a ^^^ n) ^^^ result
      let c := { c with reg_a := result % 256 }
      some { c with
        flag_z := c.reg_a == 0
        flag_n := false
        flag_c := carrybits &&& 0x100 != 0
        flag_h := carrybits &&& 0x10 != 0 }
  | Instruction.ADC_n n => do
      let (n, c) ← c.arith_operand n
      let carry := if c.flag_c then 1 else 0
      let result := c.reg_a + n + carry
      let c := { c with
        flag_z := result % 256 == 0
        flag_n := false
        flag_h := (c.reg_a &&& 0xF) + (n &&& 0xF) + carry > 0xF
        flag_c := result > 0xFF }
      some { c with reg_a := result % 256 }
  | Instruction.SUB_n n => do
      let (n, c) ← c.arith_operand n
      let result := (c.reg_a + 0x10000 - n) % 0x10000
      let carrybits := (c.reg_a ^^^ n) ^^^ result
      let c := { c with reg_a := result % 256 }
      some { c with
        flag_z := c.reg_a == 0
        flag_n := true
        flag_h := carrybits &&& 0x10 != 0
        flag_c := carrybits &&& 0x100 != 0 }
  | Instruction.SBC_n n => do
      let (n, c) ← c.arith_operand n
      let carry := if c.flag_c then 1 else 0
      let result := (c.reg_a + 0x10000 - n - carry) % 0x10000
      some { c with
        flag_z := result % 256 == 0
        flag_n := true
        flag_c := decide (c.reg_a < n + carry)
        flag_h := decide (c.reg_a &&& 0xF < (n &&& 0xF) + carry) }
  | Instruction.AND_n n => do
      let (n, c) ← c.arith_operand n
      let c := { c with reg_a := c.reg_a &&& n }
      some { c with flag_z := c.reg_a == 0, flag_n := false,
                    flag_h := true, flag_c := false }
  | Instruction.OR_n n => do
      let (n, c) ← c.arith_operand n
      let c := { c with reg_a := c.reg_a ||| n }
      some { c with flag_z := c.reg_a == 0, flag_n := false,
                    flag_h := false, flag_c := false }
  | Instruction.XOR_n n => do
      let (n, c) ← c.arith_operand n
      let c := { c with reg_a := c.reg_a ^^^ n }
      some { c with flag_z := c.reg_a == 0, flag_n := false,
                    flag_h := false, flag_c := false }
  | Instruction.CP_n n => do
      let (n, c) ← c.arith_operand n
      some { c with
        flag_n := true
        flag_c := decide (c.reg_a < n)
        flag_z := c.reg_a == n
        flag_h := decide (((c.reg_a + 256 - n) % 256) &&& 0xF > c.reg_a &&& 0xF) }
  | Instruction.INC_n r => do
      let (n, c) ← c.read_reg_r r
      let result := (n + 1) % 256
      let c := { c with flag_z := result == 0, flag_n := false,
                        flag_h := result &&& 0x0F == 0 }
      c.write_reg_r r result
  | Instruction.DEC_n r => do
      let (n, c) ← c.read_reg_r r
      let result := (n + 255) % 256
      let c := { c with flag_z := result == 0, flag_n := true,
                        flag_h := result &&& 0x0F == 0x0F }
      c.write_reg_r r result
  | Instruction.ADD_HL_nn nn => do
      let nn ←
        if nn = 0 then some c.bc
        else if nn = 1 then some c.de
        else if nn = 2 then some c.hl
        else if nn = 3 then some c.reg_sp
        else none
      let result := c.hl + nn
      let c := { c with
        flag_n := false
        flag_h := decide ((c.hl &&& 0xFFF) + (nn &&& 0xFFF) > 0xFFF)
        flag_c := decide (result > 0xFFFF) }
      let c := c.set_hl (result % 0x10000)
      some (c.add_cycles 4)
  | Instruction.ADD_SP_n => do
      let (b, c) ← c.read_byte
      let n := sext8 b
      let result := (c.reg_sp + n) % 0x10000
      let c := { c with
        flag_z := false
        flag_n := false
        flag_h := (c.reg_sp ^^^ n ^^^ (result &&& 0xFFFF)) &&& 0x10 == 0x10
        flag_c := (c.reg_sp ^^^ n ^^^ (result &&& 0xFFFF)) &&& 0x100 == 0x100 }
      let c := { c with reg_sp := result }
      some (c.add_cycles 8)
  | Instruction.INC_nn nn => do
      let c ←
        if nn = 0 then some (c.set_bc ((c.bc + 1) % 0x10000))
        else if nn = 1 then some (c.set_de ((c.de + 1) % 0x10000))
        else if nn = 2 then some (c.set_hl ((c.hl + 1) % 0x10000))
        else if nn = 3 then some { c with reg_sp := (c.reg_sp + 1) % 0x10000 }
        else none
      some (c.add_cycles 4)
  | Instruction.DEC_nn nn => do
      let c ←
        if nn = 0 then some (c.set_bc ((c.bc + 0xFFFF) % 0x10000))
        else if nn = 1 then some (c.set_de ((c.de + 0xFFFF) % 0x10000))
        else if nn = 2 then some (c.set_hl ((c.hl + 0xFFFF) % 0x10000))
        else if nn = 3 then some { c with reg_sp := (c.reg_sp + 0xFFFF) % 0x10000 }
        else none
      some (c.add_cycles 4)
  | Instruction.CPL =>
      some { c with reg_a := c.reg_a ^^^ 0xFF, flag_h := true, flag_n := true }
  | Instruction.CCF =>
      some { c with flag_c := !c.flag_c, flag_n := false, flag_h := false }
  | Instruction.SCF =>
      some { c with flag_c := true, flag_n := false, flag_h := false }
  | Instruction.NOP => some c
  | Instruction.HALT => some { c with cpu_state := CpuState.OffUntilInterrupt }
  | Instruction.STOP => do
      let (_, c) ← c.read_byte
      let c := { c with cpu_state := CpuState.OffUntilButtonPress }
      some { c with interconnect := { c.interconnect with ppu := c.interconnect.ppu.turn_lcd_off } }
  | Instruction.DI => some { c with flag_disabling_interrupts := true }
  | Instruction.EI => some { c with flag_enabling_interrupts := true }
  | Instruction.RLCA =>
      let bit7 := c.reg_a >>> 7
      let c := { c with reg_a := (c.reg_a <<< 1) % 256 + bit7 }
      some { c with flag_z := false, flag_n := false, flag_h := false, flag_c := bit7 == 1 }
  | Instruction.RLA =>
      let bit7 := c.reg_a >>> 7
      let c := { c with reg_a := (c.reg_a <<< 1) % 256 + (if c.flag_c then 1 else 0) }
      some { c with flag_z := false, flag_n := false, flag_h := false, flag_c := bit7 == 1 }
  | Instruction.RRCA =>
      let bit0 := c.reg_a &&& 1
      let c := { c with reg_a := (c.reg_a >>> 1) + (bit0 <<< 7) }
      some { c with flag_z := false, flag_n := false, flag_h := false, flag_c := bit0 == 1 }
  | Instruction.RRA =>
      let bit0 := c.reg_a &&& 1
      let c := { c with reg_a := (c.reg_a >>> 1) + ((if c.flag_c then 1 else 0) <<< 7) }
      some { c with flag_z := false, flag_n := false, flag_h := false, flag_c := bit0 == 1 }
  | Instruction.JP_nn => do
      let (nn, c) ← c.read_nn
      some { c with reg_pc := u8s_as_u16 nn }
  | Instruction.JP_cc_nn cc => do
      let (nn, c) ← c.read_nn
      let address := u8s_as_u16 nn
      let t ← c.check_cc cc
      if t then some { c with reg_pc := address } else some c
  | Instruction.JP_HLptr => some { c with reg_pc := c.hl }
  | Instruction.JR_n => do
      let (b, c) ← c.read_byte
      let n := sext8 b
      let c := { c with reg_pc := (c.reg_pc + n) % 0x10000 }
      some (c.add_cycles 4)
  | Instruction.JR_cc_n cc => do
      let (b, c) ← c.read_byte
      let n := sext8 b
      let t ← c.check_cc cc
      let c := if t then { c with reg_pc := (c.reg_pc + n) % 0x10000 } else c
      some (c.add_cycles 4)
  | Instruction.CALL_nn => do
      let (nn, c) ← c.read_nn
      let nn := u8s_as_u16 nn
      let c ← c.push_stack_u16 c.reg_pc
      let c := { c with reg_pc := nn }
      some (c.add_cycles 8)
  | Instruction.CALL_cc_nn cc => do
      let (nnp, c) ← c.read_nn
      let nn := u8s_as_u16 nnp
      let t ← c.check_cc cc
      let c ←
        if t then do
          let c ← c.push_stack_u16 c.reg_pc
          some { c with reg_pc := nn }
        else some c
      some (c.add_cycles 8)
  | Instruction.RST_n n => do
      let c ← c.push_stack_u16 c.reg_pc
      let c := { c with reg_pc := n }
      some (c.add_cycles 28)
  | Instruction.RET => do
      let (address, c) ← c.pop_stack_u16
      let c := { c with reg_pc := address }
      some (c.add_cycles 4)
  | Instruction.RET_cc cc => do
      let t ← c.check_cc cc
      let c ←
        if t then do
          let (address, c) ← c.pop_stack_u16
          some { c with reg_pc := address }
        else some c
      some (c.add_cycles 4)
  | Instruction.RETI => do
      let (address, c) ← c.pop_stack_u16
      let c := { c with reg_pc := address, flag_ime := true }
      some (c.add_cycles 8)
  | Instruction.DAA =>
      let value := c.reg_a
      let correction := 0
      let pair1 :=
        if c.flag_h || (!c.flag_n && decide ((value &&& 0xF) > 9)) then
          (correction ||| 0x06, { c with flag_c := false })
        else (correction, c)
      let correction := pair1.1
      let c := pair1.2
      let pair2 :=
        if c.flag_c || (!c.flag_n && decide (value > 0x9F)) then
          (correction ||| 0x60, { c with flag_c := true })
        else (correction, c)
      let correction := pair2.1
      let c := pair2.2
      let correction := if c.flag_n then 0xFF - correction else correction
      let c := { c with reg_a := (c.reg_a + correction) % 256 }
      some { c with flag_z := c.reg_a == 0, flag_h := false }
  | Instruction.CB => c.handle_cb_opcode

/-- `Cpu::do_next_instrution`: fetch an opcode byte; an undefined opcode
just returns (after the fetch side effects); otherwise charge the 4-cycle
base cost and execute. -/
def Cpu.do_next_instrution (c : Cpu) : Option Cpu := do
  let (opcode, c) ← c.read_byte
  match parse opcode with
  | none => some c
  | some instr =>
      let c := c.add_cycles 4
      c.execInstr instr opcode

/-- Interrupt vector addresses of `Cpu::handle_interrupts`. -/
def interrupt_vector (i : Interrupt) : Nat :=
  match i with
  | Interrupt.VBLANK => 0x0040
  | Interrupt.LCDStatus => 0x0048
  | Interrupt.TimerOverflow => 0x0050
  | Interrupt.SerialTransfer => 0x0058
  | Interrupt.Joypad => 0x0060

/-- `Cpu::handle_interrupts`: take one pending-and-enabled interrupt (the
request bit is cleared inside `get_interrupt`), wake the CPU, clear IME,
push PC and jump to the vector. -/
def Cpu.handle_interrupts (c : Cpu) : Option Cpu :=
  match c.interconnect.get_interrupt with
  | (none, ic) => some { c with interconnect := ic }
  | (some interrupt, ic) => do
      let c := { c with interconnect := ic, cpu_state := CpuState.On, flag_ime := false }
      let c ← c.push_stack_u16 c.reg_pc
      some { c with reg_pc := interrupt_vector interrupt }

/-- `Cpu::step`: tick the interconnect, burn owed cycles, dispatch one
interrupt when IME is set, process the EI/DI latches, then execute one
instruction. -/
def Cpu.step (c : Cpu) : Option Cpu := do
  let ic ← c.interconnect.update
  let c := { c with interconnect := ic }
  if c.cycles > 0 then
    some { c with cycles := c.cycles - 4 }
  else do
    let c ←
      if c.flag_ime ∧ (c.cpu_state = CpuState.On ∨ c.cpu_state = CpuState.OffUntilInterrupt) then
        c.handle_interrupts
      else some c
    if c.cpu_state ≠ CpuState.On then
      some c
    else
      let c :=
        if c.flag_disabling_interrupts then
          { c with flag_disabling_interrupts := false, flag_ime := false }
        else c
      let c :=
        if c.flag_enabling_interrupts then
          { c with flag_enabling_interrupts := false, flag_ime := true }
        else c
      c.do_next_instrution

/-! ## Supporting lemmas -/

lemma and255_eq_mod (x : Nat) : x &&& 0xFF = x % 256 := Nat.and_pow_two_sub_one_eq_mod x 8

lemma shr8_eq_div (x : Nat) : x >>> 8 = x / 256 := Nat.shiftRight_eq_div_pow x 8

lemma shl8_eq_mul (x : Nat) : x <<< 8 = x * 256 := by
  rw [Nat.shiftLeft_eq]

lemma u8s_as_u16_u16_as_u8s (x : Nat) (h : x < 0x10000) : u8s_as_u16 (u16_as_u8s x) = x := by
  unfold u8s_as_u16 u16_as_u8s
  simp only [and255_eq_mod, shr8_eq_div, shl8_eq_mul]
  omega

/-- Writable RAM on the bus: the contiguous RAM-backed window from video
RAM through sprite attribute memory, and high RAM. -/
def writable_ram (a : Nat) : Prop :=
  (0x8000 ≤ a ∧ a < 0xFEA0) ∨ (0xFF80 ≤ a ∧ a < 0xFFFF)

instance (a : Nat) : Decidable (writable_ram a) := by unfold writable_ram; infer_instance

/-- Background-buffer writes are all `draw_tile` does to a `Ppu`. -/
lemma foldl_buffer_only (f : Ppu → Nat → Ppu)
    (hf : ∀ p i, ∃ b, f p i = { p with buffer := b }) :
    ∀ (l : List Nat) (p : Ppu), ∃ b, l.foldl f p = { p with buffer := b } := by
  intro l
  induction l with
  | nil => exact fun p => ⟨p.buffer, rfl⟩
  | cons x xs ih =>
      intro p
      obtain ⟨b1, h1⟩ := hf p x
      obtain ⟨b2, h2⟩ := ih (f p x)
      exact ⟨b2, by rw [List.foldl_cons, h2, h1]⟩

lemma draw_tile_buffer_only (p : Ppu) (r c t : Nat) :
    ∃ b, p.draw_tile r c t = { p with buffer := b } := by
  unfold Ppu.draw_tile
  apply foldl_buffer_only
  intro p i
  apply foldl_buffer_only
  intro p j
  exact ⟨_, rfl⟩

lemma update_bg_tile_buffer_only (p : Ppu) (m t : Nat) :
    ∃ b, p.update_bg_tile m t = { p with buffer := b } := by
  unfold Ppu.update_bg_tile
  exact draw_tile_buffer_only _ _ _ _

/-- `write_vram` updates the VRAM cell and (at most) the background
buffer. -/
lemma write_vram_eq (p : Ppu) (a v : Nat) :
    ∃ b, p.write_vram a v =
      { p with vram := Function.update p.vram (a - VRAM_START) v, buffer := b } := by
  unfold Ppu.write_vram
  set p1 : Ppu := { p with vram := Function.update p.vram (a - VRAM_START) v } with hp1
  by_cases h : p1.is_addr_in_bg_map a
  · rw [if_pos h]
    obtain ⟨b, hb⟩ := update_bg_tile_buffer_only p1 a v
    exact ⟨b, by rw [hb]⟩
  · rw [if_neg h]
    exact ⟨p.buffer, rfl⟩

/-! Bus-routing lemmas: which arm of `write_mem` / `read_mem` a given
address range selects. -/

lemma write_mem_vram_arm (ic : Interconnect) (a v : Nat) (h1 : 0x8000 ≤ a) (h2 : a < 0xA000) :
    ic.write_mem a v = some { ic with ppu := ic.ppu.write_vram a v } := by
  unfold Interconnect.write_mem
  rw [if_neg (by simp only [ENABLE_RAM_BANK_START, ENABLE_RAM_BANK_END]; omega),
    if_neg (by simp only [CHOOSE_MEMORY_MODE_START, CHOOSE_MEMORY_MODE_END]; omega),
    if_neg (by simp only [CHOOSE_ROM_BANK_START, CHOOSE_ROM_BANK_END]; omega),
    if_neg (by simp only [CHOOSE_RAM_BANK_START, CHOOSE_RAM_BANK_END]; omega),
    if_neg (show ¬a = 0xFF50 by omega),
    if_pos (by simp only [VRAM_START, VRAM_END]; omega)]

lemma write_mem_switch_ram_arm (ic : Interconnect) (a v : Nat)
    (h1 : 0xA000 ≤ a) (h2 : a < 0xC000) :
    ic.write_mem a v = some { ic with ram_bank :=
      (Function.update ic.ram_bank (ic.ram_bank_nr * 0x2000 + (a - 0xA000)) v) } := by
  unfold Interconnect.write_mem
  rw [if_neg (by simp only [ENABLE_RAM_BANK_START, ENABLE_RAM_BANK_END]; omega),
    if_neg (by simp only [CHOOSE_MEMORY_MODE_START, CHOOSE_MEMORY_MODE_END]; omega),
    if_neg (by simp only [CHOOSE_ROM_BANK_START, CHOOSE_ROM_BANK_END]; omega),
    if_neg (by simp only [CHOOSE_RAM_BANK_START, CHOOSE_RAM_BANK_END]; omega),
    if_neg (show ¬a = 0xFF50 by omega),
    if_neg (by simp only [VRAM_START, VRAM_END]; omega),
    if_neg (by simp only [IO_PORTS_START, IO_PORTS_END]; omega),
    if_neg (by simp only [INTERNAL_RAM_START, INTERNAL_RAM_END]; omega),
    if_neg (by simp only [ECHO_RAM_START, ECHO_RAM_END]; omega),
    if_neg (by simp only [INTERNAL_RAM2_START, INTERNAL_RAM2_END]; omega),
    if_pos (by simp only [SWITCH_RAM_BANK_START, SWITCH_RAM_BANK_END]; omega)]
  rfl

lemma write_mem_internal_arm (ic : Interconnect) (a v : Nat)
    (h1 : 0xC000 ≤ a) (h2 : a < 0xE000) :
    ic.write_mem a v = some { ic with internal_ram :=
      (Function.update ic.internal_ram (a - 0xC000) v) } := by
  unfold Interconnect.write_mem
  rw [if_neg (by simp only [ENABLE_RAM_BANK_START, ENABLE_RAM_BANK_END]; omega),
    if_neg (by simp only [CHOOSE_MEMORY_MODE_START, CHOOSE_MEMORY_MODE_END]; omega),
    if_neg (by simp only [CHOOSE_ROM_BANK_START, CHOOSE_ROM_BANK_END]; omega),
    if_neg (by simp only [CHOOSE_RAM_BANK_START, CHOOSE_RAM_BANK_END]; omega),
    if_neg (show ¬a = 0xFF50 by omega),
    if_neg (by simp only [VRAM_START, VRAM_END]; omega),
    if_neg (by simp only [IO_PORTS_START, IO_PORTS_END]; omega),
    if_pos (by simp only [INTERNAL_RAM_START, INTERNAL_RAM_END]; omega)]
  rfl

lemma write_mem_echo_arm (ic : Interconnect) (a v : Nat)
    (h1 : 0xE000 ≤ a) (h2 : a < 0xFE00) :
    ic.write_mem a v = some { ic with internal_ram :=
      (Function.update ic.internal_ram (a - 0xE000) v) } := by
  unfold Interconnect.write_mem
  rw [if_neg (by simp only [ENABLE_RAM_BANK_START, ENABLE_RAM_BANK_END]; omega),
    if_neg (by simp only [CHOOSE_MEMORY_MODE_START, CHOOSE_MEMORY_MODE_END]; omega),
    if_neg (by simp only [CHOOSE_ROM_BANK_START, CHOOSE_ROM_BANK_END]; omega),
    if_neg (by simp only [CHOOSE_RAM_BANK_START, CHOOSE_RAM_BANK_END]; omega),
    if_neg (show ¬a = 0xFF50 by omega),
    if_neg (by simp only [VRAM_START, VRAM_END]; omega),
    if_neg (by simp only [IO_PORTS_START, IO_PORTS_END]; omega),
    if_neg (by simp only [INTERNAL_RAM_START, INTERNAL_RAM_END]; omega),
    if_pos (by simp only [ECHO_RAM_START, ECHO_RAM_END]; omega)]
  rfl

lemma write_mem_iram2_arm (ic : Interconnect) (a v : Nat)
    (h1 : 0xFF80 ≤ a) (h2 : a < 0xFFFF) :
    ic.write_mem a v = some { ic with internal_ram2 :=
      (Function.update ic.internal_ram2 (a - 0xFF80) v) } := by
  unfold Interconnect.write_mem
  rw [if_neg (by simp only [ENABLE_RAM_BANK_START, ENABLE_RAM_BANK_END]; omega),
    if_neg (by simp only [CHOOSE_MEMORY_MODE_START, CHOOSE_MEMORY_MODE_END]; omega),
    if_neg (by simp only [CHOOSE_ROM_BANK_START, CHOOSE_ROM_BANK_END]; omega),
    if_neg (by simp only [CHOOSE_RAM_BANK_START, CHOOSE_RAM_BANK_END]; omega),
    if_neg (show ¬a = 0xFF50 by omega),
    if_neg (by simp only [VRAM_START, VRAM_END]; omega),
    if_neg (by simp only [IO_PORTS_START, IO_PORTS_END]; omega),
    if_neg (by simp only [INTERNAL_RAM_START, INTERNAL_RAM_END]; omega),
    if_neg (by simp only [ECHO_RAM_START, ECHO_RAM_END]; omega),
    if_pos (by simp only [INTERNAL_RAM2_START, INTERNAL_RAM2_END]; omega)]
  rfl

lemma write_mem_sprite_arm (ic : Interconnect) (a v : Nat)
    (h1 : 0xFE00 ≤ a) (h2 : a < 0xFEA0) :
    ic.write_mem a v = some { ic with ppu := ic.ppu.write_sprite_mem a v } := by
  unfold Interconnect.write_mem
  rw [if_neg (by simp only [ENABLE_RAM_BANK_START, ENABLE_RAM_BANK_END]; omega),
    if_neg (by simp only [CHOOSE_MEMORY_MODE_START, CHOOSE_MEMORY_MODE_END]; omega),
    if_neg (by simp only [CHOOSE_ROM_BANK_START, CHOOSE_ROM_BANK_END]; omega),
    if_neg (by simp only [CHOOSE_RAM_BANK_START, CHOOSE_RAM_BANK_END]; omega),
    if_neg (show ¬a = 0xFF50 by omega),
    if_neg (by simp only [VRAM_START, VRAM_END]; omega),
    if_neg (by simp only [IO_PORTS_START, IO_PORTS_END]; omega),
    if_neg (by simp only [INTERNAL_RAM_START, INTERNAL_RAM_END]; omega),
    if_neg (by simp only [ECHO_RAM_START, ECHO_RAM_END]; omega),
    if_neg (by simp only [INTERNAL_RAM2_START, INTERNAL_RAM2_END]; omega),
    if_neg (by simp only [SWITCH_RAM_BANK_START, SWITCH_RAM_BANK_END]; omega),
    if_pos (by simp only [SPRITE_MEM_START, SPRITE_MEM_END]; omega)]

lemma read_mem_not_boot (ic : Interconnect) (a : Nat) (h : 0x100 ≤ a) :
    ¬(ic.booting ∧ a ≤ 0xFF) := by rintro ⟨-, hb⟩; omega

lemma read_mem_vram_arm (ic : Interconnect) (a : Nat) (h1 : 0x8000 ≤ a) (h2 : a < 0xA000) :
    ic.read_mem a = some (ic.ppu.vram (a - 0x8000)) := by
  unfold Interconnect.read_mem
  rw [if_neg (read_mem_not_boot ic a (by omega)),
    if_pos (by simp only [VRAM_START, VRAM_END]; omega)]
  rfl

lemma read_mem_switch_ram_arm (ic : Interconnect) (a : Nat) (h1 : 0xA000 ≤ a) (h2 : a < 0xC000) :
    ic.read_mem a = some (ic.ram_bank (ic.ram_bank_nr * 0x2000 + (a - 0xA000))) := by
  unfold Interconnect.read_mem
  rw [if_neg (read_mem_not_boot ic a (by omega)),
    if_neg (by simp only [VRAM_START, VRAM_END]; omega),
    if_neg (by simp only [IO_PORTS_START, IO_PORTS_END]; omega),
    if_neg (by simp only [ROM_BANK0_START, ROM_BANK0_END]; omega),
    if_neg (by simp only [SWITCH_ROM_BANK_START, SWITCH_ROM_BANK_END]; omega),
    if_neg (by simp only [INTERNAL_RAM_START, INTERNAL_RAM_END]; omega),
    if_neg (by simp only [ECHO_RAM_START, ECHO_RAM_END]; omega),
    if_neg (by simp only [INTERNAL_RAM2_START, INTERNAL_RAM2_END]; omega),
    if_pos (by simp only [SWITCH_RAM_BANK_START, SWITCH_RAM_BANK_END]; omega)]
  rfl

lemma read_mem_internal_arm (ic : Interconnect) (a : Nat) (h1 : 0xC000 ≤ a) (h2 : a < 0xE000) :
    ic.read_mem a = some (ic.internal_ram (a - 0xC000)) := by
  unfold Interconnect.read_mem
  rw [if_neg (read_mem_not_boot ic a (by omega)),
    if_neg (by simp only [VRAM_START, VRAM_END]; omega),
    if_neg (by simp only [IO_PORTS_START, IO_PORTS_END]; omega),
    if_neg (by simp only [ROM_BANK0_START, ROM_BANK0_END]; omega),
    if_neg (by simp only [SWITCH_ROM_BANK_START, SWITCH_ROM_BANK_END]; omega),
    if_pos (by simp only [INTERNAL_RAM_START, INTERNAL_RAM_END]; omega)]
  rfl

lemma read_mem_echo_arm (ic : Interconnect) (a : Nat) (h1 : 0xE000 ≤ a) (h2 : a < 0xFE00) :
    ic.read_mem a = some (ic.internal_ram (a - 0xE000)) := by
  unfold Interconnect.read_mem
  rw [if_neg (read_mem_not_boot ic a (by omega)),
    if_neg (by simp only [VRAM_START, VRAM_END]; omega),
    if_neg (by simp only [IO_PORTS_START, IO_PORTS_END]; omega),
    if_neg (by simp only [ROM_BANK0_START, ROM_BANK0_END]; omega),
    if_neg (by simp only [SWITCH_ROM_BANK_START, SWITCH_ROM_BANK_END]; omega),
    if_neg (by simp only [INTERNAL_RAM_START, INTERNAL_RAM_END]; omega),
    if_pos (by simp only [ECHO_RAM_START, ECHO_RAM_END]; omega)]
  rfl

lemma read_mem_iram2_arm (ic : Interconnect) (a : Nat) (h1 : 0xFF80 ≤ a) (h2 : a < 0xFFFF) :
    ic.read_mem a = some (ic.internal_ram2 (a - 0xFF80)) := by
  unfold Interconnect.read_mem
  rw [if_neg (read_mem_not_boot ic a (by omega)),
    if_neg (by simp only [VRAM_START, VRAM_END]; omega),
    if_neg (by simp only [IO_PORTS_START, IO_PORTS_END]; omega),
    if_neg (by simp only [ROM_BANK0_START, ROM_BANK0_END]; omega),
    if_neg (by simp only [SWITCH_ROM_BANK_START, SWITCH_ROM_BANK_END]; omega),
    if_neg (by simp only [INTERNAL_RAM_START, INTERNAL_RAM_END]; omega),
    if_neg (by simp only [ECHO_RAM_START, ECHO_RAM_END]; omega),
    if_pos (by simp only [INTERNAL_RAM2_START, INTERNAL_RAM2_END]; omega)]
  rfl

lemma read_mem_sprite_arm (ic : Interconnect) (a : Nat) (h1 : 0xFE00 ≤ a) (h2 : a < 0xFEA0) :
    ic.read_mem a = some (ic.ppu.sprite_memory (a - 0xFE00)) := by
  unfold Interconnect.read_mem
  rw [if_neg (read_mem_not_boot ic a (by omega)),
    if_neg (by simp only [VRAM_START, VRAM_END]; omega),
    if_neg (by simp only [IO_PORTS_START, IO_PORTS_END]; omega),
    if_neg (by simp only [ROM_BANK0_START, ROM_BANK0_END]; omega),
    if_neg (by simp only [SWITCH_ROM_BANK_START, SWITCH_ROM_BANK_END]; omega),
    if_neg (by simp only [INTERNAL_RAM_START, INTERNAL_RAM_END]; omega),
    if_neg (by simp only [ECHO_RAM_START, ECHO_RAM_END]; omega),
    if_neg (by simp only [INTERNAL_RAM2_START, INTERNAL_RAM2_END]; omega),
    if_neg (by simp only [SWITCH_RAM_BANK_START, SWITCH_RAM_BANK_END]; omega),
    if_pos (by simp only [SPRITE_MEM_START, SPRITE_MEM_END]; omega)]
  rfl

lemma read_mem_rom0_arm (ic : Interconnect) (a : Nat) (hb : ic.booting = false)
    (h2 : a < 0x4000) :
    ic.read_mem a = ic.rom.get? a := by
  unfold Interconnect.read_mem
  rw [if_neg (by rintro ⟨hbb, -⟩; rw [hb] at hbb; exact Bool.false_ne_true hbb)]
  by_cases hlow : 0x8000 ≤ a
  · omega
  · rw [if_neg (by simp only [VRAM_START, VRAM_END]; omega),
      if_neg (by simp only [IO_PORTS_START, IO_PORTS_END]; omega),
      if_pos (by simp only [ROM_BANK0_START, ROM_BANK0_END]; omega)]
    simp only [ROM_BANK0_START, Nat.sub_zero]

/-- Two consecutive VRAM writes seen through the vram array. -/
lemma write_vram_twice (p : Ppu) (a a' hi lo : Nat) :
    ∃ b, (p.write_vram a hi).write_vram a' lo =
      { p with
        vram := Function.update (Function.update p.vram (a - VRAM_START) hi) (a' - VRAM_START) lo
        buffer := b } := by
  obtain ⟨b1, h1⟩ := write_vram_eq p a hi
  rw [h1]
  obtain ⟨b2, h2⟩ := write_vram_eq { p with
    vram := Function.update p.vram (a - VRAM_START) hi, buffer := b1 } a' lo
  rw [h2]
  exact ⟨b2, rfl⟩

/-- Writing `hi` at a writable-RAM address `a` and then `lo` at `a - 1`
succeeds, stores both bytes retrievably, and leaves the rest of the bus
state alone. -/
lemma write2_read2 (ic : Interconnect) (a hi lo : Nat)
    (h1 : writable_ram a) (h0 : writable_ram (a - 1)) :
    ∃ ic2, (ic.write_mem a hi).bind (fun ic1 => ic1.write_mem (a - 1) lo) = some ic2 ∧
      ic2.read_mem (a - 1) = some lo ∧
      ic2.read_mem a = some hi ∧
      ic2.booting = ic.booting ∧
      ic2.rom = ic.rom ∧
      ic2.rom_bank_nr = ic.rom_bank_nr ∧
      ic2.interrupt_flag = ic.interrupt_flag ∧
      ic2.interrupt_enable = ic.interrupt_enable := by
  rcases h1 with ⟨hb1, hb2⟩ | ⟨hb1, hb2⟩
  · -- a in the contiguous window 0x8000..0xFEA0
    have ha1 : 0x8001 ≤ a := by
      rcases h0 with ⟨hc1, hc2⟩ | ⟨hc1, hc2⟩ <;> omega
    by_cases hA : a < 0xA000
    · -- both writes in VRAM
      rw [write_mem_vram_arm ic a hi (by omega) (by omega), Option.some_bind,
        write_mem_vram_arm _ (a - 1) lo (by omega) (by omega)]
      obtain ⟨b, hb⟩ := write_vram_twice ic.ppu a (a - 1) hi lo
      refine ⟨_, rfl, ?_, ?_, rfl, rfl, rfl, rfl, rfl⟩
      · rw [read_mem_vram_arm _ (a - 1) (by omega) (by omega)]
        simp only [hb, VRAM_START, Function.update_same]
      · rw [read_mem_vram_arm _ a (by omega) (by omega)]
        have hne : a - 0x8000 ≠ a - 1 - 0x8000 := by omega
        simp only [hb, VRAM_START, Function.update_noteq hne, Function.update_same]
    · by_cases hB : a = 0xA000
      · -- a in the switchable RAM bank, a-1 in VRAM
        subst hB
        rw [write_mem_switch_ram_arm ic 0xA000 hi (by omega) (by omega), Option.some_bind,
          write_mem_vram_arm _ (0xA000 - 1) lo (by omega) (by omega)]
        obtain ⟨b, hb⟩ := write_vram_eq ic.ppu (0xA000 - 1) lo
        refine ⟨_, rfl, ?_, ?_, rfl, rfl, rfl, rfl, rfl⟩
        · rw [read_mem_vram_arm _ (0xA000 - 1) (by omega) (by omega)]
          simp only [hb, VRAM_START, Function.update_same]
        · rw [read_mem_switch_ram_arm _ 0xA000 (by omega) (by omega)]
          simp only [Function.update_same]
      · by_cases hC : a < 0xC000
        · -- both writes in the switchable RAM bank
          rw [write_mem_switch_ram_arm ic a hi (by omega) (by omega), Option.some_bind,
            write_mem_switch_ram_arm _ (a - 1) lo (by omega) (by omega)]
          refine ⟨_, rfl, ?_, ?_, rfl, rfl, rfl, rfl, rfl⟩
          · rw [read_mem_switch_ram_arm _ (a - 1) (by omega) (by omega)]
            simp only [Function.update_same]
          · rw [read_mem_switch_ram_arm _ a (by omega) (by omega)]
            have hne : ic.ram_bank_nr * 0x2000 + (a - 0xA000) ≠
                ic.ram_bank_nr * 0x2000 + (a - 1 - 0xA000) := by omega
            simp only [Function.update_noteq hne, Function.update_same]
        · by_cases hD : a = 0xC000
          · -- a in work RAM, a-1 in the switchable RAM bank
            subst hD
            rw [write_mem_internal_arm ic 0xC000 hi (by omega) (by omega), Option.some_bind,
              write_mem_switch_ram_arm _ (0xC000 - 1) lo (by omega) (by omega)]
            refine ⟨_, rfl, ?_, ?_, rfl, rfl, rfl, rfl, rfl⟩
            · rw [read_mem_switch_ram_arm _ (0xC000 - 1) (by omega) (by omega)]
              simp only [Function.update_same]
            · rw [read_mem_internal_arm _ 0xC000 (by omega) (by omega)]
              simp only [Function.update_same]
          · by_cases hE : a < 0xE000
            · -- both writes in work RAM
              rw [write_mem_internal_arm ic a hi (by omega) (by omega), Option.some_bind,
                write_mem_internal_arm _ (a - 1) lo (by omega) (by omega)]
              refine ⟨_, rfl, ?_, ?_, rfl, rfl, rfl, rfl, rfl⟩
              · rw [read_mem_internal_arm _ (a - 1) (by omega) (by omega)]
                simp only [Function.update_same]
              · rw [read_mem_internal_arm _ a (by omega) (by omega)]
                have hne : a - 0xC000 ≠ a - 1 - 0xC000 := by omega
                simp only [Function.update_noteq hne, Function.update_same]
            · by_cases hF : a = 0xE000
              · -- a in echo RAM (aliasing work RAM cell 0), a-1 in work RAM
                subst hF
                rw [write_mem_echo_arm ic 0xE000 hi (by omega) (by omega), Option.some_bind,
                  write_mem_internal_arm _ (0xE000 - 1) lo (by omega) (by omega)]
                refine ⟨_, rfl, ?_, ?_, rfl, rfl, rfl, rfl, rfl⟩
                · rw [read_mem_internal_arm _ (0xE000 - 1) (by omega) (by omega)]
                  simp only [Function.update_same]
                · rw [read_mem_echo_arm _ 0xE000 (by omega) (by omega)]
                  have hne : (0xE000 : Nat) - 0xE000 ≠ 0xE000 - 1 - 0xC000 := by omega
                  simp only [Function.update_noteq hne, Function.update_same]
              · by_cases hG : a < 0xFE00
                · -- both writes in echo RAM
                  rw [write_mem_echo_arm ic a hi (by omega) (by omega), Option.some_bind,
                    write_mem_echo_arm _ (a - 1) lo (by omega) (by omega)]
                  refine ⟨_, rfl, ?_, ?_, rfl, rfl, rfl, rfl, rfl⟩
                  · rw [read_mem_echo_arm _ (a - 1) (by omega) (by omega)]
                    simp only [Function.update_same]
                  · rw [read_mem_echo_arm _ a (by omega) (by omega)]
                    have hne : a - 0xE000 ≠ a - 1 - 0xE000 := by omega
                    simp only [Function.update_noteq hne, Function.update_same]
                · by_cases hH : a = 0xFE00
                  · -- a in sprite memory, a-1 in echo RAM
                    subst hH
                    rw [write_mem_sprite_arm ic 0xFE00 hi (by omega) (by omega), Option.some_bind,
                      write_mem_echo_arm _ (0xFE00 - 1) lo (by omega) (by omega)]
                    refine ⟨_, rfl, ?_, ?_, rfl, rfl, rfl, rfl, rfl⟩
                    · rw [read_mem_echo_arm _ (0xFE00 - 1) (by omega) (by omega)]
                      simp only [Function.update_same]
                    · rw [read_mem_sprite_arm _ 0xFE00 (by omega) (by omega)]
                      simp only [Ppu.write_sprite_mem, SPRITE_MEM_START, Function.update_same]
                  · -- both writes in sprite memory
                    rw [write_mem_sprite_arm ic a hi (by omega) (by omega), Option.some_bind,
                      write_mem_sprite_arm _ (a - 1) lo (by omega) (by omega)]
                    refine ⟨_, rfl, ?_, ?_, rfl, rfl, rfl, rfl, rfl⟩
                    · rw [read_mem_sprite_arm _ (a - 1) (by omega) (by omega)]
                      simp only [Ppu.write_sprite_mem, SPRITE_MEM_START, Function.update_same]
                    · rw [read_mem_sprite_arm _ a (by omega) (by omega)]
                      have hne : a - 0xFE00 ≠ a - 1 - 0xFE00 := by omega
                      simp only [Ppu.write_sprite_mem, SPRITE_MEM_START,
                        Function.update_noteq hne, Function.update_same]
  · -- a in high RAM; a-1 must be in high RAM too
    have ha1 : 0xFF81 ≤ a := by
      rcases h0 with ⟨hc1, hc2⟩ | ⟨hc1, hc2⟩ <;> omega
    rw [write_mem_iram2_arm ic a hi (by omega) (by omega), Option.some_bind,
      write_mem_iram2_arm _ (a - 1) lo (by omega) (by omega)]
    refine ⟨_, rfl, ?_, ?_, rfl, rfl, rfl, rfl, rfl⟩
    · rw [read_mem_iram2_arm _ (a - 1) (by omega) (by omega)]
      simp only [Function.update_same]
    · rw [read_mem_iram2_arm _ a (by omega) (by omega)]
      have hne : a - 0xFF80 ≠ a - 1 - 0xFF80 := by omega
      simp only [Function.update_noteq hne, Function.update_same]

/-- A 16-bit stack push with both touched addresses in writable RAM:
succeeds, stores the high byte at SP and the low byte at SP-1, moves SP
down by two, charges 8 cycles, and leaves everything else unchanged. -/
lemma push_stack_u16_ram (c : Cpu) (x : Nat)
    (h1 : writable_ram c.reg_sp) (h0 : writable_ram (c.reg_sp - 1)) :
    ∃ c2, c.push_stack_u16 x = some c2 ∧
      c2.interconnect.read_mem c.reg_sp = some ((x >>> 8) &&& 0xFF) ∧
      c2.interconnect.read_mem (c.reg_sp - 1) = some (x &&& 0xFF) ∧
      c2.reg_sp = c.reg_sp - 2 ∧ c2.cycles = c.cycles + 8 ∧
      c2.reg_pc = c.reg_pc ∧ c2.reg_a = c.reg_a ∧ c2.reg_f = c.reg_f ∧
      c2.flag_ime = c.flag_ime ∧ c2.cpu_state = c.cpu_state ∧
      c2.flag_disabling_interrupts = c.flag_disabling_interrupts ∧
      c2.flag_enabling_interrupts = c.flag_enabling_interrupts ∧
      c2.interconnect.booting = c.interconnect.booting ∧
      c2.interconnect.rom = c.interconnect.rom ∧
      c2.interconnect.rom_bank_nr = c.interconnect.rom_bank_nr ∧
      c2.interconnect.interrupt_flag = c.interconnect.interrupt_flag ∧
      c2.interconnect.interrupt_enable = c.interconnect.interrupt_enable := by
  obtain ⟨ra, rb, rc0, rd, re, rf, rh, rl, sp, pc, fz, fn, fh, fc, fi, fd, fe, ic, cy, st⟩ := c
  simp only [] at h1 h0 ⊢
  have hb : 0x8000 ≤ sp ∧ sp < 0x10000 := by
    rcases h1 with ⟨u1, u2⟩ | ⟨u1, u2⟩ <;> omega
  obtain ⟨ic2, hbind, hr0, hr1, hboot, hrom, hbank, hif, hie⟩ :=
    write2_read2 ic sp ((u16_as_u8s x).1) ((u16_as_u8s x).2) h1 h0
  rw [Option.bind_eq_some] at hbind
  obtain ⟨ic1, w1, w2⟩ := hbind
  have e1 : (sp + 0xFFFF) % 0x10000 = sp - 1 := by omega
  have e2 : (sp - 1 + 0xFFFF) % 0x10000 = sp - 2 := by omega
  refine ⟨⟨ra, rb, rc0, rd, re, rf, rh, rl, sp - 2, pc, fz, fn, fh, fc, fi, fd, fe, ic2,
    cy + 4 + 4, st⟩, ?_, hr1, hr0, rfl, by show cy + 4 + 4 = cy + 8; omega, rfl, rfl, rfl,
    rfl, rfl, rfl, rfl, hboot, hrom, hbank, hif, hie⟩
  simp only [Cpu.push_stack_u16, Cpu.push_stack, Cpu.write_mem, Cpu.add_cycles, w1,
    Option.map_some', Option.bind_eq_bind, Option.some_bind, e1, e2, w2]

/-! Frame lemmas: no primitive CPU helper writes the F register byte or
the IME flag, and neither does any instruction arm except POP AF (F) and
RETI (IME, set to true).  These support the F-byte frame-effect and
EI-latency claims. -/

lemma read_mem_ok (c : Cpu) (a v : Nat) (c' : Cpu) (h : c.read_mem a = some (v, c')) :
    c'.reg_f = c.reg_f ∧ c'.flag_ime = c.flag_ime := by
  unfold Cpu.read_mem Cpu.add_cycles at h
  simp only [] at h
  split at h
  · simp only [Option.some.injEq, Prod.mk.injEq] at h
    obtain ⟨-, h2⟩ := h
    subst h2
    exact ⟨rfl, rfl⟩
  · exact Option.noConfusion h

lemma write_mem_ok (c : Cpu) (a v : Nat) (c' : Cpu) (h : c.write_mem a v = some c') :
    c'.reg_f = c.reg_f ∧ c'.flag_ime = c.flag_ime := by
  unfold Cpu.write_mem Cpu.add_cycles at h
  rw [Option.map_eq_some'] at h
  obtain ⟨ic, -, h2⟩ := h
  subst h2
  exact ⟨rfl, rfl⟩

lemma read_byte_ok (c : Cpu) (v : Nat) (c' : Cpu) (h : c.read_byte = some (v, c')) :
    c'.reg_f = c.reg_f ∧ c'.flag_ime = c.flag_ime := by
  unfold Cpu.read_byte at h
  rw [Option.bind_eq_bind, Option.bind_eq_some] at h
  obtain ⟨⟨w, c1⟩, h1, h2⟩ := h
  obtain ⟨e1, e2⟩ := read_mem_ok _ _ _ _ h1
  simp only [Option.some.injEq, Prod.mk.injEq] at h2
  obtain ⟨-, h3⟩ := h2
  subst h3
  exact ⟨e1, e2⟩

lemma read_nn_ok (c : Cpu) (v w : Nat) (c' : Cpu) (h : c.read_nn = some ((v, w), c')) :
    c'.reg_f = c.reg_f ∧ c'.flag_ime = c.flag_ime := by
  unfold Cpu.read_nn at h
  rw [Option.bind_eq_bind, Option.bind_eq_some] at h
  obtain ⟨⟨x1, c1⟩, h1, h2⟩ := h
  simp only [Option.bind_eq_bind, Option.bind_eq_some] at h2
  obtain ⟨⟨x2, c2⟩, h3, h4⟩ := h2
  obtain ⟨e1, e2⟩ := read_byte_ok _ _ _ h1
  obtain ⟨e3, e4⟩ := read_byte_ok _ _ _ h3
  simp only [Option.some.injEq, Prod.mk.injEq] at h4
  obtain ⟨-, h5⟩ := h4
  subst h5
  exact ⟨e3.trans e1, e4.trans e2⟩

lemma push_stack_ok (c : Cpu) (v : Nat) (c' : Cpu) (h : c.push_stack v = some c') :
    c'.reg_f = c.reg_f ∧ c'.flag_ime = c.flag_ime := by
  unfold Cpu.push_stack at h
  rw [Option.bind_eq_bind, Option.bind_eq_some] at h
  obtain ⟨c1, h1, h2⟩ := h
  obtain ⟨e1, e2⟩ := write_mem_ok _ _ _ _ h1
  simp only [Option.some.injEq] at h2
  subst h2
  exact ⟨e1, e2⟩

lemma push_stack_u16_ok (c : Cpu) (v : Nat) (c' : Cpu) (h : c.push_stack_u16 v = some c') :
    c'.reg_f = c.reg_f ∧ c'.flag_ime = c.flag_ime := by
  unfold Cpu.push_stack_u16 at h
  rw [Option.bind_eq_bind, Option.bind_eq_some] at h
  obtain ⟨c1, h1, h2⟩ := h
  obtain ⟨e1, e2⟩ := push_stack_ok _ _ _ h1
  obtain ⟨e3, e4⟩ := push_stack_ok _ _ _ h2
  exact ⟨e3.trans e1, e4.trans e2⟩

lemma pop_stack_ok (c : Cpu) (v : Nat) (c' : Cpu) (h : c.pop_stack = some (v, c')) :
    c'.reg_f = c.reg_f ∧ c'.flag_ime = c.flag_ime := by
  unfold Cpu.pop_stack at h
  simp only [] at h
  obtain ⟨e1, e2⟩ := read_mem_ok _ _ _ _ h
  exact ⟨e1, e2⟩

lemma pop_stack_u16_ok (c : Cpu) (v : Nat) (c' : Cpu) (h : c.pop_stack_u16 = some (v, c')) :
    c'.reg_f = c.reg_f ∧ c'.flag_ime = c.flag_ime := by
  unfold Cpu.pop_stack_u16 at h
  rw [Option.bind_eq_bind, Option.bind_eq_some] at h
  obtain ⟨⟨x1, c1⟩, h1, h2⟩ := h
  simp only [Option.bind_eq_bind, Option.bind_eq_some] at h2
  obtain ⟨⟨x2, c2⟩, h3, h4⟩ := h2
  obtain ⟨e1, e2⟩ := pop_stack_ok _ _ _ h1
  obtain ⟨e3, e4⟩ := pop_stack_ok _ _ _ h3
  simp only [Option.some.injEq, Prod.mk.injEq] at h4
  obtain ⟨-, h5⟩ := h4
  subst h5
  exact ⟨e3.trans e1, e4.trans e2⟩

lemma read_reg_r_ok (c : Cpu) (r v : Nat) (c' : Cpu) (h : c.read_reg_r r = some (v, c')) :
    c'.reg_f = c.reg_f ∧ c'.flag_ime = c.flag_ime := by
  unfold Cpu.read_reg_r at h
  split_ifs at h <;>
    first
    | (exact read_mem_ok _ _ _ _ h)
    | (simp only [Option.some.injEq, Prod.mk.injEq] at h
       obtain ⟨-, h2⟩ := h
       subst h2
       exact ⟨rfl, rfl⟩)
    | (exact Option.noConfusion h)

lemma write_reg_r_ok (c : Cpu) (r v : Nat) (c' : Cpu) (h : c.write_reg_r r v = some c') :
    c'.reg_f = c.reg_f ∧ c'.flag_ime = c.flag_ime := by
  unfold Cpu.write_reg_r at h
  split_ifs at h <;>
    first
    | (exact write_mem_ok _ _ _ _ h)
    | (simp only [Option.some.injEq] at h
       subst h
       exact ⟨rfl, rfl⟩)
    | (exact Option.noConfusion h)

lemma arith_operand_ok (c : Cpu) (n v : Nat) (c' : Cpu) (h : c.arith_operand n = some (v, c')) :
    c'.reg_f = c.reg_f ∧ c'.flag_ime = c.flag_ime := by
  unfold Cpu.arith_operand at h
  split_ifs at h
  · exact read_byte_ok _ _ _ h
  · exact read_reg_r_ok _ _ _ _ h

lemma execCB_ok (c : Cpu) (inst : CB_Instruction) (c' : Cpu) (h : c.execCB inst = some c') :
    c'.reg_f = c.reg_f ∧ c'.flag_ime = c.flag_ime := by
  cases inst <;>
    (simp only [Cpu.execCB, Option.bind_eq_bind, Option.bind_eq_some] at h
     obtain ⟨⟨v, c1⟩, h1, h2⟩ := h
     obtain ⟨e1, e2⟩ := read_reg_r_ok _ _ _ _ h1
     simp only [] at h2)
  case BIT_b_r b r =>
    simp only [Option.some.injEq] at h2
    subst h2
    exact ⟨e1, e2⟩
  all_goals
    obtain ⟨f1, f2⟩ := write_reg_r_ok _ _ _ _ h2
  all_goals
    exact ⟨f1.trans e1, f2.trans e2⟩

lemma handle_cb_opcode_ok (c : Cpu) (c' : Cpu) (h : c.handle_cb_opcode = some c') :
    c'.reg_f = c.reg_f ∧ c'.flag_ime = c.flag_ime := by
  unfold Cpu.handle_cb_opcode at h
  rw [Option.bind_eq_bind, Option.bind_eq_some] at h
  obtain ⟨⟨v, c1⟩, h1, h2⟩ := h
  obtain ⟨e1, e2⟩ := read_byte_ok _ _ _ h1
  simp only [] at h2
  obtain ⟨f1, f2⟩ := execCB_ok _ _ _ h2
  exact ⟨f1.trans e1, f2.trans e2⟩

/-- Frame lemma for one instruction: only POP AF (opcode 0xF1) writes the
F register byte, and the IME flag is never cleared by an instruction
(RETI sets it). -/
lemma execInstr_frame (c : Cpu) (i : Instruction) (o : Nat) (c' : Cpu)
    (h : c.execInstr i o = some c') :
    (c'.reg_f = c.reg_f ∨ (i = Instruction.POP_nn ∧ o = 0xF1)) ∧
    (c'.flag_ime = c.flag_ime ∨ c'.flag_ime = true) := by
  cases i
  case LD_r1_r2 r1 r2 =>
    simp only [Cpu.execInstr, Option.bind_eq_bind, Option.bind_eq_some] at h
    obtain ⟨⟨v, c1⟩, h1, h2⟩ := h
    obtain ⟨e1, e2⟩ := read_reg_r_ok _ _ _ _ h1
    simp only [] at h2
    obtain ⟨f1, f2⟩ := write_reg_r_ok _ _ _ _ h2
    exact ⟨Or.inl (f1.trans e1), Or.inl (f2.trans e2)⟩
  case LD_r1_n r1 =>
    simp only [Cpu.execInstr, Option.bind_eq_bind, Option.bind_eq_some] at h
    obtain ⟨⟨v, c1⟩, h1, h2⟩ := h
    obtain ⟨e1, e2⟩ := read_byte_ok _ _ _ h1
    simp only [] at h2
    obtain ⟨f1, f2⟩ := write_reg_r_ok _ _ _ _ h2
    exact ⟨Or.inl (f1.trans e1), Or.inl (f2.trans e2)⟩
  case LD_A_nnptr =>
    simp only [Cpu.execInstr] at h
    split_ifs at h
    · rw [Option.bind_eq_bind, Option.bind_eq_some] at h
      obtain ⟨⟨v, c1⟩, h1, h2⟩ := h
      obtain ⟨e1, e2⟩ := read_mem_ok _ _ _ _ h1
      simp only [Option.some.injEq] at h2
      subst h2
      exact ⟨Or.inl e1, Or.inl e2⟩
    · rw [Option.bind_eq_bind, Option.bind_eq_some] at h
      obtain ⟨⟨v, c1⟩, h1, h2⟩ := h
      obtain ⟨e1, e2⟩ := read_mem_ok _ _ _ _ h1
      simp only [Option.some.injEq] at h2
      subst h2
      exact ⟨Or.inl e1, Or.inl e2⟩
    · rw [Option.bind_eq_bind, Option.bind_eq_some] at h
      obtain ⟨⟨nn, c1⟩, h1, h2⟩ := h
      obtain ⟨e1, e2⟩ := read_nn_ok _ _ _ _ (by rw [← h1])
      simp only [Option.bind_eq_bind, Option.bind_eq_some] at h2
      obtain ⟨⟨v, c2⟩, h3, h4⟩ := h2
      obtain ⟨f1, f2⟩ := read_mem_ok _ _ _ _ h3
      simp only [Option.some.injEq] at h4
      subst h4
      exact ⟨Or.inl (f1.trans e1), Or.inl (f2.trans e2)⟩
  case LD_nnptr_A =>
    simp only [Cpu.execInstr] at h
    split_ifs at h
    · obtain ⟨e1, e2⟩ := write_mem_ok _ _ _ _ h
      exact ⟨Or.inl e1, Or.inl e2⟩
    · obtain ⟨e1, e2⟩ := write_mem_ok _ _ _ _ h
      exact ⟨Or.inl e1, Or.inl e2⟩
    · rw [Option.bind_eq_bind, Option.bind_eq_some] at h
      obtain ⟨⟨nn, c1⟩, h1, h2⟩ := h
      obtain ⟨e1, e2⟩ := read_nn_ok _ _ _ _ (by rw [← h1])
      simp only [] at h2
      obtain ⟨f1, f2⟩ := write_mem_ok _ _ _ _ h2
      exact ⟨Or.inl (f1.trans e1), Or.inl (f2.trans e2)⟩
  case LD_A_Cptr =>
    simp only [Cpu.execInstr, Option.bind_eq_bind, Option.bind_eq_some] at h
    obtain ⟨⟨v, c1⟩, h1, h2⟩ := h
    obtain ⟨e1, e2⟩ := read_mem_ok _ _ _ _ h1
    simp only [Option.some.injEq] at h2
    subst h2
    exact ⟨Or.inl e1, Or.inl e2⟩
  case LD_Cptr_A =>
    simp only [Cpu.execInstr] at h
    obtain ⟨e1, e2⟩ := write_mem_ok _ _ _ _ h
    exact ⟨Or.inl e1, Or.inl e2⟩
  case LDD_A_HLptr =>
    simp only [Cpu.execInstr, Option.bind_eq_bind, Option.bind_eq_some] at h
    obtain ⟨⟨v, c1⟩, h1, h2⟩ := h
    obtain ⟨e1, e2⟩ := read_mem_ok _ _ _ _ h1
    simp only [Option.some.injEq] at h2
    subst h2
    exact ⟨Or.inl e1, Or.inl e2⟩
  case LDD_HLptr_A =>
    simp only [Cpu.execInstr, Option.bind_eq_bind, Option.bind_eq_some] at h
    obtain ⟨c1, h1, h2⟩ := h
    obtain ⟨e1, e2⟩ := write_mem_ok _ _ _ _ h1
    simp only [Option.some.injEq] at h2
    subst h2
    exact ⟨Or.inl e1, Or.inl e2⟩
  case LDI_A_HLptr =>
    simp only [Cpu.execInstr, Option.bind_eq_bind, Option.bind_eq_some] at h
    obtain ⟨⟨v, c1⟩, h1, h2⟩ := h
    obtain ⟨e1, e2⟩ := read_mem_ok _ _ _ _ h1
    simp only [Option.some.injEq] at h2
    subst h2
    exact ⟨Or.inl e1, Or.inl e2⟩
  case LDI_HLptr_A =>
    simp only [Cpu.execInstr, Option.bind_eq_bind, Option.bind_eq_some] at h
    obtain ⟨c1, h1, h2⟩ := h
    obtain ⟨e1, e2⟩ := write_mem_ok _ _ _ _ h1
    simp only [Option.some.injEq] at h2
    subst h2
    exact ⟨Or.inl e1, Or.inl e2⟩
  case LDH_nptr_A =>
    simp only [Cpu.execInstr, Option.bind_eq_bind, Option.bind_eq_some] at h
    obtain ⟨⟨v, c1⟩, h1, h2⟩ := h
    obtain ⟨e1, e2⟩ := read_byte_ok _ _ _ h1
    simp only [] at h2
    obtain ⟨f1, f2⟩ := write_mem_ok _ _ _ _ h2
    exact ⟨Or.inl (f1.trans e1), Or.inl (f2.trans e2)⟩
  case LDH_A_nptr =>
    simp only [Cpu.execInstr, Option.bind_eq_bind, Option.bind_eq_some] at h
    obtain ⟨⟨v, c1⟩, h1, h2⟩ := h
    obtain ⟨e1, e2⟩ := read_byte_ok _ _ _ h1
    simp only [Option.bind_eq_bind, Option.bind_eq_some] at h2
    obtain ⟨⟨w, c2⟩, h3, h4⟩ := h2
    obtain ⟨f1, f2⟩ := read_mem_ok _ _ _ _ h3
    simp only [Option.some.injEq] at h4
    subst h4
    exact ⟨Or.inl (f1.trans e1), Or.inl (f2.trans e2)⟩
  case LD_rr_nn =>
    simp only [Cpu.execInstr, Option.bind_eq_bind, Option.bind_eq_some] at h
    obtain ⟨⟨nn, c1⟩, h1, h2⟩ := h
    obtain ⟨e1, e2⟩ := read_nn_ok _ _ _ _ (by rw [← h1])
    simp only [] at h2
    split_ifs at h2 <;>
      first
      | exact Option.noConfusion h2
      | (simp only [Option.some.injEq] at h2
         subst h2
         exact ⟨Or.inl e1, Or.inl e2⟩)
  case LD_SP_HL =>
    simp only [Cpu.execInstr, Option.some.injEq] at h
    subst h
    exact ⟨Or.inl rfl, Or.inl rfl⟩
  case LDHL_SPn =>
    simp only [Cpu.execInstr, Option.bind_eq_bind, Option.bind_eq_some] at h
    obtain ⟨⟨v, c1⟩, h1, h2⟩ := h
    obtain ⟨e1, e2⟩ := read_byte_ok _ _ _ h1
    simp only [Option.some.injEq] at h2
    subst h2
    exact ⟨Or.inl e1, Or.inl e2⟩
  case LD_nn_SP =>
    simp only [Cpu.execInstr, Option.bind_eq_bind, Option.bind_eq_some] at h
    obtain ⟨⟨nn, c1⟩, h1, h2⟩ := h
    obtain ⟨e1, e2⟩ := read_nn_ok _ _ _ _ (by rw [← h1])
    simp only [Option.some.injEq] at h2
    subst h2
    exact ⟨Or.inl e1, Or.inl e2⟩
  case PUSH_nn =>
    simp only [Cpu.execInstr] at h
    split_ifs at h <;>
      (rw [Option.bind_eq_bind, Option.bind_eq_some] at h
       obtain ⟨c1, h1, h2⟩ := h
       first
       | exact Option.noConfusion h1
       | (obtain ⟨e1, e2⟩ := push_stack_u16_ok _ _ _ h1
          simp only [Option.some.injEq] at h2
          subst h2
          exact ⟨Or.inl e1, Or.inl e2⟩))
  case POP_nn =>
    simp only [Cpu.execInstr, Option.bind_eq_bind, Option.bind_eq_some] at h
    obtain ⟨⟨v, c1⟩, h1, h2⟩ := h
    obtain ⟨e1, e2⟩ := pop_stack_u16_ok _ _ _ h1
    simp only [] at h2
    split_ifs at h2 with hF1 hC1 hD1 hE1
    · simp only [Option.bind_eq_bind, Option.some_bind, Option.some.injEq] at h2
      subst h2
      exact ⟨Or.inr ⟨rfl, hF1⟩, Or.inl e2⟩
    · simp only [Option.bind_eq_bind, Option.some_bind, Option.some.injEq] at h2
      subst h2
      exact ⟨Or.inl e1, Or.inl e2⟩
    · simp only [Option.bind_eq_bind, Option.some_bind, Option.some.injEq] at h2
      subst h2
      exact ⟨Or.inl e1, Or.inl e2⟩
    · simp only [Option.bind_eq_bind, Option.some_bind, Option.some.injEq] at h2
      subst h2
      exact ⟨Or.inl e1, Or.inl e2⟩
    · rw [Option.none_bind] at h2
      exact Option.noConfusion h2
  case ADD_n n =>
    simp only [Cpu.execInstr, Option.bind_eq_bind, Option.bind_eq_some] at h
    obtain ⟨⟨v, c1⟩, h1, h2⟩ := h
    obtain ⟨e1, e2⟩ := arith_operand_ok _ _ _ _ h1
    simp only [Option.some.injEq] at h2
    subst h2
    exact ⟨Or.inl e1, Or.inl e2⟩
  case ADC_n n =>
    simp only [Cpu.execInstr, Option.bind_eq_bind, Option.bind_eq_some] at h
    obtain ⟨⟨v, c1⟩, h1, h2⟩ := h
    obtain ⟨e1, e2⟩ := arith_operand_ok _ _ _ _ h1
    simp only [Option.some.injEq] at h2
    subst h2
    exact ⟨Or.inl e1, Or.inl e2⟩
  case SUB_n n =>
    simp only [Cpu.execInstr, Option.bind_eq_bind, Option.bind_eq_some] at h
    obtain ⟨⟨v, c1⟩, h1, h2⟩ := h
    obtain ⟨e1, e2⟩ := arith_operand_ok _ _ _ _ h1
    simp only [Option.some.injEq] at h2
    subst h2
    exact ⟨Or.inl e1, Or.inl e2⟩
  case SBC_n n =>
    simp only [Cpu.execInstr, Option.bind_eq_bind, Option.bind_eq_some] at h
    obtain ⟨⟨v, c1⟩, h1, h2⟩ := h
    obtain ⟨e1, e2⟩ := arith_operand_ok _ _ _ _ h1
    simp only [Option.some.injEq] at h2
    subst h2
    exact ⟨Or.inl e1, Or.inl e2⟩
  case AND_n n =>
    simp only [Cpu.execInstr, Option.bind_eq_bind, Option.bind_eq_some] at h
    obtain ⟨⟨v, c1⟩, h1, h2⟩ := h
    obtain ⟨e1, e2⟩ := arith_operand_ok _ _ _ _ h1
    simp only [Option.some.injEq] at h2
    subst h2
    exact ⟨Or.inl e1, Or.inl e2⟩
  case OR_n n =>
    simp only [Cpu.execInstr, Option.bind_eq_bind, Option.bind_eq_some] at h
    obtain ⟨⟨v, c1⟩, h1, h2⟩ := h
    obtain ⟨e1, e2⟩ := arith_operand_ok _ _ _ _ h1
    simp only [Option.some.injEq] at h2
    subst h2
    exact ⟨Or.inl e1, Or.inl e2⟩
  case XOR_n n =>
    simp only [Cpu.execInstr, Option.bind_eq_bind, Option.bind_eq_some] at h
    obtain ⟨⟨v, c1⟩, h1, h2⟩ := h
    obtain ⟨e1, e2⟩ := arith_operand_ok _ _ _ _ h1
    simp only [Option.some.injEq] at h2
    subst h2
    exact ⟨Or.inl e1, Or.inl e2⟩
  case CP_n n =>
    simp only [Cpu.execInstr, Option.bind_eq_bind, Option.bind_eq_some] at h
    obtain ⟨⟨v, c1⟩, h1, h2⟩ := h
    obtain ⟨e1, e2⟩ := arith_operand_ok _ _ _ _ h1
    simp only [Option.some.injEq] at h2
    subst h2
    exact ⟨Or.inl e1, Or.inl e2⟩
  case INC_n r =>
    simp only [Cpu.execInstr, Option.bind_eq_bind, Option.bind_eq_some] at h
    obtain ⟨⟨v, c1⟩, h1, h2⟩ := h
    obtain ⟨e1, e2⟩ := read_reg_r_ok _ _ _ _ h1
    simp only [] at h2
    obtain ⟨f1, f2⟩ := write_reg_r_ok _ _ _ _ h2
    exact ⟨Or.inl (f1.trans e1), Or.inl (f2.trans e2)⟩
  case DEC_n r =>
    simp only [Cpu.execInstr, Option.bind_eq_bind, Option.bind_eq_some] at h
    obtain ⟨⟨v, c1⟩, h1, h2⟩ := h
    obtain ⟨e1, e2⟩ := read_reg_r_ok _ _ _ _ h1
    simp only [] at h2
    obtain ⟨f1, f2⟩ := write_reg_r_ok _ _ _ _ h2
    exact ⟨Or.inl (f1.trans e1), Or.inl (f2.trans e2)⟩
  case ADD_HL_nn nn =>
    simp only [Cpu.execInstr] at h
    split_ifs at h <;>
      first
      | (rw [Option.bind_eq_bind, Option.none_bind] at h
         exact Option.noConfusion h)
      | (simp only [Option.bind_eq_bind, Option.some_bind, Option.some.injEq] at h
         subst h
         refine ⟨Or.inl ?_, Or.inl ?_⟩ <;>
           simp only [Cpu.add_cycles, Cpu.set_bc, Cpu.set_de, Cpu.set_hl, u16_as_u8s])
  case ADD_SP_n =>
    simp only [Cpu.execInstr, Option.bind_eq_bind, Option.bind_eq_some] at h
    obtain ⟨⟨v, c1⟩, h1, h2⟩ := h
    obtain ⟨e1, e2⟩ := read_byte_ok _ _ _ h1
    simp only [Option.some.injEq] at h2
    subst h2
    exact ⟨Or.inl e1, Or.inl e2⟩
  case INC_nn nn =>
    simp only [Cpu.execInstr] at h
    split_ifs at h <;>
      first
      | (rw [Option.bind_eq_bind, Option.none_bind] at h
         exact Option.noConfusion h)
      | (simp only [Option.bind_eq_bind, Option.some_bind, Option.some.injEq] at h
         subst h
         refine ⟨Or.inl ?_, Or.inl ?_⟩ <;>
           simp only [Cpu.add_cycles, Cpu.set_bc, Cpu.set_de, Cpu.set_hl, u16_as_u8s])
  case DEC_nn nn =>
    simp only [Cpu.execInstr] at h
    split_ifs at h <;>
      first
      | (rw [Option.bind_eq_bind, Option.none_bind] at h
         exact Option.noConfusion h)
      | (simp only [Option.bind_eq_bind, Option.some_bind, Option.some.injEq] at h
         subst h
         refine ⟨Or.inl ?_, Or.inl ?_⟩ <;>
           simp only [Cpu.add_cycles, Cpu.set_bc, Cpu.set_de, Cpu.set_hl, u16_as_u8s])
  case CPL =>
    simp only [Cpu.execInstr, Option.some.injEq] at h
    subst h
    exact ⟨Or.inl rfl, Or.inl rfl⟩
  case CCF =>
    simp only [Cpu.execInstr, Option.some.injEq] at h
    subst h
    exact ⟨Or.inl rfl, Or.inl rfl⟩
  case SCF =>
    simp only [Cpu.execInstr, Option.some.injEq] at h
    subst h
    exact ⟨Or.inl rfl, Or.inl rfl⟩
  case NOP =>
    simp only [Cpu.execInstr, Option.some.injEq] at h
    subst h
    exact ⟨Or.inl rfl, Or.inl rfl⟩
  case HALT =>
    simp only [Cpu.execInstr, Option.some.injEq] at h
    subst h
    exact ⟨Or.inl rfl, Or.inl rfl⟩
  case STOP =>
    simp only [Cpu.execInstr, Option.bind_eq_bind, Option.bind_eq_some] at h
    obtain ⟨⟨v, c1⟩, h1, h2⟩ := h
    obtain ⟨e1, e2⟩ := read_byte_ok _ _ _ h1
    simp only [Option.some.injEq] at h2
    subst h2
    exact ⟨Or.inl e1, Or.inl e2⟩
  case DI =>
    simp only [Cpu.execInstr, Option.some.injEq] at h
    subst h
    exact ⟨Or.inl rfl, Or.inl rfl⟩
  case EI =>
    simp only [Cpu.execInstr, Option.some.injEq] at h
    subst h
    exact ⟨Or.inl rfl, Or.inl rfl⟩
  case RLCA =>
    simp only [Cpu.execInstr, Option.some.injEq] at h
    subst h
    exact ⟨Or.inl rfl, Or.inl rfl⟩
  case RLA =>
    simp only [Cpu.execInstr, Option.some.injEq] at h
    subst h
    exact ⟨Or.inl rfl, Or.inl rfl⟩
  case RRCA =>
    simp only [Cpu.execInstr, Option.some.injEq] at h
    subst h
    exact ⟨Or.inl rfl, Or.inl rfl⟩
  case RRA =>
    simp only [Cpu.execInstr, Option.some.injEq] at h
    subst h
    exact ⟨Or.inl rfl, Or.inl rfl⟩
  case JP_nn =>
    simp only [Cpu.execInstr, Option.bind_eq_bind, Option.bind_eq_some] at h
    obtain ⟨⟨nn, c1⟩, h1, h2⟩ := h
    obtain ⟨e1, e2⟩ := read_nn_ok _ _ _ _ (by rw [← h1])
    simp only [Option.some.injEq] at h2
    subst h2
    exact ⟨Or.inl e1, Or.inl e2⟩
  case JP_cc_nn cc =>
    simp only [Cpu.execInstr, Option.bind_eq_bind, Option.bind_eq_some] at h
    obtain ⟨⟨nn, c1⟩, h1, h2⟩ := h
    obtain ⟨e1, e2⟩ := read_nn_ok _ _ _ _ (by rw [← h1])
    simp only [Option.bind_eq_bind, Option.bind_eq_some] at h2
    obtain ⟨t, h3, h4⟩ := h2
    split_ifs at h4 <;>
      (simp only [Option.some.injEq] at h4
       subst h4
       exact ⟨Or.inl e1, Or.inl e2⟩)
  case JP_HLptr =>
    simp only [Cpu.execInstr, Option.some.injEq] at h
    subst h
    exact ⟨Or.inl rfl, Or.inl rfl⟩
  case JR_n =>
    simp only [Cpu.execInstr, Option.bind_eq_bind, Option.bind_eq_some] at h
    obtain ⟨⟨v, c1⟩, h1, h2⟩ := h
    obtain ⟨e1, e2⟩ := read_byte_ok _ _ _ h1
    simp only [Option.some.injEq] at h2
    subst h2
    exact ⟨Or.inl e1, Or.inl e2⟩
  case JR_cc_n cc =>
    simp only [Cpu.execInstr, Option.bind_eq_bind, Option.bind_eq_some] at h
    obtain ⟨⟨v, c1⟩, h1, h2⟩ := h
    obtain ⟨e1, e2⟩ := read_byte_ok _ _ _ h1
    simp only [Option.bind_eq_bind, Option.bind_eq_some] at h2
    obtain ⟨t, h3, h4⟩ := h2
    simp only [Option.some.injEq] at h4
    subst h4
    cases t
    · exact ⟨Or.inl e1, Or.inl e2⟩
    · exact ⟨Or.inl e1, Or.inl e2⟩
  case CALL_nn =>
    simp only [Cpu.execInstr, Option.bind_eq_bind, Option.bind_eq_some] at h
    obtain ⟨⟨nn, c1⟩, h1, h2⟩ := h
    obtain ⟨e1, e2⟩ := read_nn_ok _ _ _ _ (by rw [← h1])
    simp only [Option.bind_eq_bind, Option.bind_eq_some] at h2
    obtain ⟨c2, h3, h4⟩ := h2
    obtain ⟨f1, f2⟩ := push_stack_u16_ok _ _ _ h3
    simp only [Option.some.injEq] at h4
    subst h4
    exact ⟨Or.inl (f1.trans e1), Or.inl (f2.trans e2)⟩
  case CALL_cc_nn cc =>
    simp only [Cpu.execInstr, Option.bind_eq_bind, Option.bind_eq_some] at h
    obtain ⟨⟨nn, c1⟩, h1, h2⟩ := h
    obtain ⟨e1, e2⟩ := read_nn_ok _ _ _ _ (by rw [← h1])
    simp only [Option.bind_eq_bind, Option.bind_eq_some] at h2
    obtain ⟨t, h3, h4⟩ := h2
    split_ifs at h4
    · simp only [Option.bind_eq_bind, Option.bind_eq_some] at h4
      obtain ⟨c2, h5, h6⟩ := h4
      obtain ⟨f1, f2⟩ := push_stack_u16_ok _ _ _ h5
      obtain ⟨a, ha1, ha2⟩ := h6
      simp only [Option.some.injEq] at ha1 ha2
      subst ha1
      subst ha2
      refine ⟨Or.inl ?_, Or.inl ?_⟩
      · show c2.reg_f = c.reg_f
        exact f1.trans e1
      · show c2.flag_ime = c.flag_ime
        exact f2.trans e2
    · simp only [Option.bind_eq_bind, Option.some_bind, Option.some.injEq] at h4
      subst h4
      exact ⟨Or.inl e1, Or.inl e2⟩
  case RST_n n =>
    simp only [Cpu.execInstr, Option.bind_eq_bind, Option.bind_eq_some] at h
    obtain ⟨c1, h1, h2⟩ := h
    obtain ⟨e1, e2⟩ := push_stack_u16_ok _ _ _ h1
    simp only [Option.some.injEq] at h2
    subst h2
    exact ⟨Or.inl e1, Or.inl e2⟩
  case RET =>
    simp only [Cpu.execInstr, Option.bind_eq_bind, Option.bind_eq_some] at h
    obtain ⟨⟨v, c1⟩, h1, h2⟩ := h
    obtain ⟨e1, e2⟩ := pop_stack_u16_ok _ _ _ h1
    simp only [Option.some.injEq] at h2
    subst h2
    exact ⟨Or.inl e1, Or.inl e2⟩
  case RET_cc cc =>
    simp only [Cpu.execInstr, Option.bind_eq_bind, Option.bind_eq_some] at h
    obtain ⟨t, h1, h2⟩ := h
    split_ifs at h2
    · simp only [Option.bind_eq_bind, Option.bind_eq_some] at h2
      obtain ⟨⟨v, c3⟩, h5, h6⟩ := h2
      obtain ⟨e1, e2⟩ := pop_stack_u16_ok _ _ _ h5
      obtain ⟨a, ha1, ha2⟩ := h6
      simp only [Option.some.injEq] at ha1 ha2
      subst ha1
      subst ha2
      refine ⟨Or.inl ?_, Or.inl ?_⟩
      · show c3.reg_f = c.reg_f
        exact e1
      · show c3.flag_ime = c.flag_ime
        exact e2
    · simp only [Option.bind_eq_bind, Option.some_bind, Option.some.injEq] at h2
      subst h2
      exact ⟨Or.inl rfl, Or.inl rfl⟩
  case RETI =>
    simp only [Cpu.execInstr, Option.bind_eq_bind, Option.bind_eq_some] at h
    obtain ⟨⟨v, c1⟩, h1, h2⟩ := h
    obtain ⟨e1, e2⟩ := pop_stack_u16_ok _ _ _ h1
    simp only [Option.some.injEq] at h2
    subst h2
    exact ⟨Or.inl e1, Or.inr rfl⟩
  case DAA =>
    simp only [Cpu.execInstr, Option.some.injEq] at h
    subst h
    refine ⟨Or.inl ?_, Or.inl ?_⟩ <;>
      (split <;> split <;> rfl)
  case CB =>
    simp only [Cpu.execInstr] at h
    obtain ⟨e1, e2⟩ := handle_cb_opcode_ok _ _ h
    exact ⟨Or.inl e1, Or.inl e2⟩

/-- `Cpu::pop_stack_u16` with the two stack bytes known: returns the
reassembled word and restores SP upward by two. -/
lemma pop_stack_u16_reads (c : Cpu) (hi lo : Nat)
    (hb : c.reg_sp + 2 < 0x10000)
    (h1 : c.interconnect.read_mem (c.reg_sp + 1) = some lo)
    (h2 : c.interconnect.read_mem (c.reg_sp + 2) = some hi) :
    ∃ c2, c.pop_stack_u16 = some (u8s_as_u16 (hi, lo), c2) ∧
      c2.reg_sp = c.reg_sp + 2 ∧ c2.cycles = c.cycles + 8 ∧
      c2.interconnect = c.interconnect ∧ c2.reg_pc = c.reg_pc ∧
      c2.reg_f = c.reg_f ∧ c2.flag_ime = c.flag_ime ∧ c2.cpu_state = c.cpu_state := by
  obtain ⟨ra, rb, rc0, rd, re, rf, rh, rl, sp, pc, fz, fn, fh, fc, fi, fd, fe, ic, cy, st⟩ := c
  simp only [] at h1 h2 hb ⊢
  have e1 : (sp + 1) % 0x10000 = sp + 1 := by omega
  have e2 : (sp + 1 + 1) % 0x10000 = sp + 2 := by omega
  refine ⟨⟨ra, rb, rc0, rd, re, rf, rh, rl, sp + 2, pc, fz, fn, fh, fc, fi, fd, fe, ic,
    cy + 4 + 4, st⟩, ?_, rfl, by show cy + 4 + 4 = cy + 8; omega, rfl, rfl, rfl, rfl, rfl⟩
  simp only [Cpu.pop_stack_u16, Cpu.pop_stack, Cpu.read_mem, Cpu.add_cycles, e1, e2, h1, h2,
    Option.bind_eq_bind, Option.some_bind]

/-! ## Interrupt dispatch lemmas -/

/-- `Interconnect::get_interrupt` picks the lowest pending-and-enabled
index and clears exactly that request bit. -/
lemma get_interrupt_least (ic : Interconnect) (j : Nat) (hj : j < 5)
    (hset : (check_bit ic.interrupt_flag j && check_bit ic.interrupt_enable j) = true)
    (hmin : ∀ k, k < j →
      (check_bit ic.interrupt_flag k && check_bit ic.interrupt_enable k) = false) :
    ic.get_interrupt = (Interrupt.from_u8 j,
      { ic with interrupt_flag := ic.interrupt_flag &&& ((1 <<< j) ^^^ 0xFF) }) := by
  unfold Interconnect.get_interrupt
  rw [show List.range 5 = [0, 1, 2, 3, 4] from rfl]
  interval_cases j
  · rw [List.find?_cons_of_pos (p := fun i => check_bit ic.interrupt_flag i && check_bit ic.interrupt_enable i) _ (by exact hset)]
  · rw [List.find?_cons_of_neg _ (by simp [hmin 0 (by omega)]),
        List.find?_cons_of_pos (p := fun i => check_bit ic.interrupt_flag i && check_bit ic.interrupt_enable i) _ (by exact hset)]
  · rw [List.find?_cons_of_neg _ (by simp [hmin 0 (by omega)]),
        List.find?_cons_of_neg _ (by simp [hmin 1 (by omega)]),
        List.find?_cons_of_pos (p := fun i => check_bit ic.interrupt_flag i && check_bit ic.interrupt_enable i) _ (by exact hset)]
  · rw [List.find?_cons_of_neg _ (by simp [hmin 0 (by omega)]),
        List.find?_cons_of_neg _ (by simp [hmin 1 (by omega)]),
        List.find?_cons_of_neg _ (by simp [hmin 2 (by omega)]),
        List.find?_cons_of_pos (p := fun i => check_bit ic.interrupt_flag i && check_bit ic.interrupt_enable i) _ (by exact hset)]
  · rw [List.find?_cons_of_neg _ (by simp [hmin 0 (by omega)]),
        List.find?_cons_of_neg _ (by simp [hmin 1 (by omega)]),
        List.find?_cons_of_neg _ (by simp [hmin 2 (by omega)]),
        List.find?_cons_of_neg _ (by simp [hmin 3 (by omega)]),
        List.find?_cons_of_pos (p := fun i => check_bit ic.interrupt_flag i && check_bit ic.interrupt_enable i) _ (by exact hset)]

/-- `Cpu::handle_interrupts` when source `j` is the lowest pending-and-enabled
index and the stack lies in RAM: wakes the CPU, clears IME, clears that
request bit, pushes PC and jumps to vector `0x40 + 8 * j`, charging the
8 cycles of the two stack writes. -/
lemma handle_interrupts_dispatch (c : Cpu) (j : Nat) (hj : j < 5)
    (hset : (check_bit c.interconnect.interrupt_flag j &&
             check_bit c.interconnect.interrupt_enable j) = true)
    (hmin : ∀ k, k < j → (check_bit c.interconnect.interrupt_flag k &&
             check_bit c.interconnect.interrupt_enable k) = false)
    (h1 : writable_ram c.reg_sp) (h0 : writable_ram (c.reg_sp - 1)) :
    ∃ c2, c.handle_interrupts = some c2 ∧
      c2.reg_pc = 0x40 + 8 * j ∧
      c2.flag_ime = false ∧
      c2.cpu_state = CpuState.On ∧
      c2.cycles = c.cycles + 8 ∧
      c2.reg_sp = c.reg_sp - 2 ∧
      c2.interconnect.read_mem c.reg_sp = some ((c.reg_pc >>> 8) &&& 0xFF) ∧
      c2.interconnect.read_mem (c.reg_sp - 1) = some (c.reg_pc &&& 0xFF) ∧
      c2.interconnect.interrupt_flag
        = c.interconnect.interrupt_flag &&& ((1 <<< j) ^^^ 0xFF) ∧
      c2.interconnect.interrupt_enable = c.interconnect.interrupt_enable := by
  have hrw := get_interrupt_least c.interconnect j hj hset hmin
  interval_cases j
  · obtain ⟨c2, hpush, hr0, hr1, hsp, hcy, hpc, hra, hrf, hime, hst, hfd, hfe,
        hboot, hrom, hbank, hif, hie⟩ :=
      push_stack_u16_ram
        { c with
            interconnect :=
              { c.interconnect with
                  interrupt_flag := c.interconnect.interrupt_flag &&& ((1 <<< 0) ^^^ 0xFF) }
            cpu_state := CpuState.On
            flag_ime := false }
        c.reg_pc h1 h0
    refine ⟨{ c2 with reg_pc := 0x40 + 8 * 0 }, ?_, rfl, hime, hst, hcy, hsp,
      hr0, hr1, hif, hie⟩
    unfold Cpu.handle_interrupts
    rw [hrw, show Interrupt.from_u8 0 = some Interrupt.VBLANK from rfl]
    simp only [Option.bind_eq_bind]
    rw [hpush, Option.some_bind]
    rfl
  · obtain ⟨c2, hpush, hr0, hr1, hsp, hcy, hpc, hra, hrf, hime, hst, hfd, hfe,
        hboot, hrom, hbank, hif, hie⟩ :=
      push_stack_u16_ram
        { c with
            interconnect :=
              { c.interconnect with
                  interrupt_flag := c.interconnect.interrupt_flag &&& ((1 <<< 1) ^^^ 0xFF) }
            cpu_state := CpuState.On
            flag_ime := false }
        c.reg_pc h1 h0
    refine ⟨{ c2 with reg_pc := 0x40 + 8 * 1 }, ?_, rfl, hime, hst, hcy, hsp,
      hr0, hr1, hif, hie⟩
    unfold Cpu.handle_interrupts
    rw [hrw, show Interrupt.from_u8 1 = some Interrupt.LCDStatus from rfl]
    simp only [Option.bind_eq_bind]
    rw [hpush, Option.some_bind]
    rfl
  · obtain ⟨c2, hpush, hr0, hr1, hsp, hcy, hpc, hra, hrf, hime, hst, hfd, hfe,
        hboot, hrom, hbank, hif, hie⟩ :=
      push_stack_u16_ram
        { c with
            interconnect :=
              { c.interconnect with
                  interrupt_flag := c.interconnect.interrupt_flag &&& ((1 <<< 2) ^^^ 0xFF) }
            cpu_state := CpuState.On
            flag_ime := false }
        c.reg_pc h1 h0
    refine ⟨{ c2 with reg_pc := 0x40 + 8 * 2 }, ?_, rfl, hime, hst, hcy, hsp,
      hr0, hr1, hif, hie⟩
    unfold Cpu.handle_interrupts
    rw [hrw, show Interrupt.from_u8 2 = some Interrupt.TimerOverflow from rfl]
    simp only [Option.bind_eq_bind]
    rw [hpush, Option.some_bind]
    rfl
  · obtain ⟨c2, hpush, hr0, hr1, hsp, hcy, hpc, hra, hrf, hime, hst, hfd, hfe,
        hboot, hrom, hbank, hif, hie⟩ :=
      push_stack_u16_ram
        { c with
            interconnect :=
              { c.interconnect with
                  interrupt_flag := c.interconnect.interrupt_flag &&& ((1 <<< 3) ^^^ 0xFF) }
            cpu_state := CpuState.On
            flag_ime := false }
        c.reg_pc h1 h0
    refine ⟨{ c2 with reg_pc := 0x40 + 8 * 3 }, ?_, rfl, hime, hst, hcy, hsp,
      hr0, hr1, hif, hie⟩
    unfold Cpu.handle_interrupts
    rw [hrw, show Interrupt.from_u8 3 = some Interrupt.SerialTransfer from rfl]
    simp only [Option.bind_eq_bind]
    rw [hpush, Option.some_bind]
    rfl
  · obtain ⟨c2, hpush, hr0, hr1, hsp, hcy, hpc, hra, hrf, hime, hst, hfd, hfe,
        hboot, hrom, hbank, hif, hie⟩ :=
      push_stack_u16_ram
        { c with
            interconnect :=
              { c.interconnect with
                  interrupt_flag := c.interconnect.interrupt_flag &&& ((1 <<< 4) ^^^ 0xFF) }
            cpu_state := CpuState.On
            flag_ime := false }
        c.reg_pc h1 h0
    refine ⟨{ c2 with reg_pc := 0x40 + 8 * 4 }, ?_, rfl, hime, hst, hcy, hsp,
      hr0, hr1, hif, hie⟩
    unfold Cpu.handle_interrupts
    rw [hrw, show Interrupt.from_u8 4 = some Interrupt.Joypad from rfl]
    simp only [Option.bind_eq_bind]
    rw [hpush, Option.some_bind]
    rfl

/-- Frame lemma for `Cpu::do_next_instrution`: an instruction leaves the F
byte alone unless the fetched opcode was 0xF1 (POP AF), and never clears
IME. -/
lemma do_next_frame (c c' : Cpu) (h : c.do_next_instrution = some c') :
    ∃ o c1, c.read_byte = some (o, c1) ∧
      (c'.reg_f = c.reg_f ∨ o = 0xF1) ∧
      (c'.flag_ime = c.flag_ime ∨ c'.flag_ime = true) := by
  unfold Cpu.do_next_instrution at h
  rw [Option.bind_eq_bind, Option.bind_eq_some] at h
  obtain ⟨⟨o, c1⟩, h1, h2⟩ := h
  obtain ⟨e1, e2⟩ := read_byte_ok _ _ _ h1
  refine ⟨o, c1, h1, ?_⟩
  cases hp : parse o with
  | none =>
      simp only [hp, Option.some.injEq] at h2
      subst h2
      exact ⟨Or.inl e1, Or.inl e2⟩
  | some i =>
      simp only [hp] at h2
      obtain ⟨f1, f2⟩ := execInstr_frame _ _ _ _ h2
      constructor
      · rcases f1 with f1 | ⟨-, f1⟩
        · exact Or.inl ((f1.trans (show (c1.add_cycles 4).reg_f = c1.reg_f from rfl)).trans e1)
        · exact Or.inr f1
      · rcases f2 with f2 | f2
        · exact Or.inl ((f2.trans (show (c1.add_cycles 4).flag_ime = c1.flag_ime from rfl)).trans e2)
        · exact Or.inr f2

/-! ## Concrete test fixtures -/

/-- A 256-byte all-zero boot ROM image. -/
def testBoot : ByteVec := ⟨0x100, fun _ => 0⟩

/-- A 32 KiB cartridge image: `0xAA` at byte offset 16000, `0xBB` at byte
offset `0x4000`, `0x00` (NOP) everywhere else. -/
def testRom : ByteVec :=
  ⟨0x8000, fun n => if n = 16000 then 0xAA else if n = 0x4000 then 0xBB else 0⟩

/-- Interconnect fixture: past the boot overlay, with the PPU one cycle
away from its next state change. -/
def base_ic : Interconnect :=
  { Interconnect.new testBoot testRom with
      booting := false
      ppu := { Ppu.new with cycles := 1 } }

/-- Cpu fixture: stack in internal RAM, PC in the cartridge. -/
def testCpu : Cpu := { Cpu.new base_ic with reg_sp := 0xC100, reg_pc := 0x150 }

/-- What `do_next_instrution` makes of `testCpu`: the NOP at 0x150. -/
def testCpuRes : Cpu := { testCpu with reg_pc := 0x151, cycles := 12 }

/-- Interrupt fixture: VBlank and Timer both requested and enabled, IME
set. -/
def c1fix : Cpu :=
  { Cpu.new { base_ic with interrupt_flag := 0b101, interrupt_enable := 0b101 } with
      reg_sp := 0xC100
      reg_pc := 0x150
      flag_ime := true }

/-- DAA fixture: A = 0x9A with Subtract clear, HalfCarry set, Carry
clear. -/
def c2fix : Cpu := { Cpu.new base_ic with reg_a := 0x9A, flag_h := true }

/-- Halted fixture: VBlank requested and enabled, IME set, CPU halted. -/
def c3fix : Cpu :=
  { Cpu.new { base_ic with interrupt_flag := 1, interrupt_enable := 1 } with
      reg_sp := 0xC100
      reg_pc := 0x150
      flag_ime := true
      cpu_state := CpuState.OffUntilInterrupt }

/-- The halted fixture with IME clear. -/
def c3noime : Cpu := { c3fix with flag_ime := false }

/-- What one `step` of `c3noime` produces: only the PPU ticked. -/
def c3n : Cpu :=
  { c3noime with interconnect :=
      { c3noime.interconnect with ppu := { c3noime.interconnect.ppu with cycles := 0 } } }

/-- EI-latch fixture: the EI instruction just finished (latch set, IME
still clear), an enabled VBlank request is pending, PC at a NOP. -/
def cEI : Cpu :=
  { Cpu.new { base_ic with interrupt_flag := 1, interrupt_enable := 1 } with
      reg_pc := 0x150
      flag_enabling_interrupts := true }

/-- `cEI`'s interconnect after one update tick. -/
def cEIu : Interconnect :=
  { cEI.interconnect with ppu := { cEI.interconnect.ppu with cycles := 0 } }

/-- What one `step` of `cEI` produces: the latch is consumed, IME turns
on, and the following NOP executes with no interrupt dispatched. -/
def cEIres : Cpu :=
  { cEI with
      interconnect := cEIu
      flag_enabling_interrupts := false
      flag_ime := true
      reg_pc := 0x151
      cycles := 12 }

/-- Stack-boundary fixture: SP at the bottom edge of high RAM. -/
def c5bad : Cpu := { Cpu.new base_ic with reg_sp := 0xFF80 }

/-- DMA fixture: internal RAM holds 0x55 at 0xC000, so an OAM DMA
triggered by writing 0xC0 to 0xFF46 would copy 0x55 into sprite memory. -/
def c6ic : Interconnect :=
  { base_ic with internal_ram := Function.update (fun _ => 0) 0 0x55 }

/-- POP AF fixture: the stack holds the word 0x12FF (low byte first). -/
def c9ic : Interconnect :=
  { base_ic with internal_ram :=
      Function.update (Function.update (fun _ => 0) 0xFF 0xFF) 0x100 0x12 }

/-- Cpu above the 0x12FF stack word. -/
def c9fix : Cpu := { Cpu.new c9ic with reg_sp := 0xC0FE }

/-- What `pop_stack_u16` makes of `c9fix`. -/
def c9popped : Cpu := { c9fix with reg_sp := 0xC100, cycles := 8 }

/-! ## Claim theorems -/

/-- C1 (corrected): when `j` is the lowest-priority-index source that is
both requested and enabled and the stack lies in writable RAM,
`Cpu::handle_interrupts` clears that source's request bit, clears IME,
pushes the current PC onto the stack, sets PC to the vector
`0x40 + 8 * j` (0x0040/0x0048/0x0050/0x0058/0x0060 in priority order),
transitions the run-state to Running, and charges 8 cycles — the two
4-cycle stack writes — not the 20 the spec states. -/
theorem C1_interrupt_dispatch (c : Cpu) (j : Nat) (hj : j < 5)
    (hset : (check_bit c.interconnect.interrupt_flag j &&
             check_bit c.interconnect.interrupt_enable j) = true)
    (hmin : ∀ k, k < j → (check_bit c.interconnect.interrupt_flag k &&
             check_bit c.interconnect.interrupt_enable k) = false)
    (h1 : writable_ram c.reg_sp) (h0 : writable_ram (c.reg_sp - 1)) :
    ∃ c2, c.handle_interrupts = some c2 ∧
      c2.reg_pc = 0x40 + 8 * j ∧
      c2.flag_ime = false ∧
      c2.cpu_state = CpuState.On ∧
      c2.cycles = c.cycles + 8 ∧
      c2.reg_sp = c.reg_sp - 2 ∧
      c2.interconnect.read_mem c.reg_sp = some ((c.reg_pc >>> 8) &&& 0xFF) ∧
      c2.interconnect.read_mem (c.reg_sp - 1) = some (c.reg_pc &&& 0xFF) ∧
      c2.interconnect.interrupt_flag
        = c.interconnect.interrupt_flag &&& ((1 <<< j) ^^^ 0xFF) ∧
      c2.interconnect.interrupt_enable = c.interconnect.interrupt_enable :=
  handle_interrupts_dispatch c j hj hset hmin h1 h0

/-- C1 witness: dispatch of the pending VBlank of `c1fix` (VBlank and
Timer both requested and enabled; VBlank, index 0, is taken). -/
theorem C1_interrupt_dispatch_witness :
    ∃ c2, c1fix.handle_interrupts = some c2 ∧
      c2.reg_pc = 0x40 + 8 * 0 ∧
      c2.flag_ime = false ∧
      c2.cpu_state = CpuState.On ∧
      c2.cycles = c1fix.cycles + 8 ∧
      c2.reg_sp = c1fix.reg_sp - 2 ∧
      c2.interconnect.read_mem c1fix.reg_sp = some ((c1fix.reg_pc >>> 8) &&& 0xFF) ∧
      c2.interconnect.read_mem (c1fix.reg_sp - 1) = some (c1fix.reg_pc &&& 0xFF) ∧
      c2.interconnect.interrupt_flag
        = c1fix.interconnect.interrupt_flag &&& ((1 <<< 0) ^^^ 0xFF) ∧
      c2.interconnect.interrupt_enable = c1fix.interconnect.interrupt_enable :=
  C1_interrupt_dispatch c1fix 0 (by decide) (by decide)
    (fun k hk => absurd hk (Nat.not_lt_zero k)) (by decide) (by decide)

/-- C1 counterexample: the dispatch of `c1fix`'s VBlank charges 8 cycles,
not the 20 the spec states. -/
theorem C1_interrupt_dispatch_counterexample :
    (c1fix.handle_interrupts).map Cpu.cycles = some 8 ∧
    (c1fix.handle_interrupts).map Cpu.cycles ≠ some 20 := by
  refine ⟨rfl, fun h => ?_⟩
  rw [show (c1fix.handle_interrupts).map Cpu.cycles = some 8 from rfl] at h
  exact absurd h (by decide)

/-- C2 (code refutation): with A = 0x9A, Subtract clear, HalfCarry set,
Carry clear, the DAA arm produces A = 0xA0 with Carry still clear — not
the documented A = 0x00 with Carry set.  The code compares
`value > 0x9F` where the algorithm it transcribes uses `> 0x99`, and it
clears Carry inside the 0x06-correction branch. -/
theorem C2_daa_result :
    (c2fix.execInstr Instruction.DAA 0x27).map (fun c => (c.reg_a, c.flag_c))
        = some (0xA0, false) ∧
    (c2fix.execInstr Instruction.DAA 0x27).map (fun c => (c.reg_a, c.flag_c))
        ≠ some (0x00, true) := by
  refine ⟨rfl, fun h => ?_⟩
  rw [show (c2fix.execInstr Instruction.DAA 0x27).map (fun c => (c.reg_a, c.flag_c))
        = some (0xA0, false) from rfl] at h
  exact absurd h (by decide)

/-- C3 (corrected): HALT does enter OffUntilInterrupt, but a halted CPU
does not resume on a pending interrupt unless IME is set: the interrupt
check in `step` is guarded by `flag_ime`, so with IME clear a step only
ticks the interconnect and the CPU stays halted; with IME set a pending
enabled interrupt wakes it through the dispatch (here `c3fix` resumes at
the VBlank vector and executes the instruction there). -/
theorem C3_halt_resume :
    (∀ (c : Cpu) (o : Nat),
      c.execInstr Instruction.HALT o
        = some { c with cpu_state := CpuState.OffUntilInterrupt }) ∧
    (∀ (c c' : Cpu), c.cpu_state = CpuState.OffUntilInterrupt → c.flag_ime = false →
      c.step = some c' →
      c'.cpu_state = CpuState.OffUntilInterrupt ∧ c'.reg_pc = c.reg_pc) ∧
    (c3fix.step).map (fun c => (c.cpu_state, c.reg_pc)) = some (CpuState.On, 0x41) := by
  refine ⟨fun c o => rfl, ?_, rfl⟩
  intro c c' hst hime h
  unfold Cpu.step at h
  rw [Option.bind_eq_bind, Option.bind_eq_some] at h
  obtain ⟨ic', h1, h2⟩ := h
  by_cases hcy : ({ c with interconnect := ic' } : Cpu).cycles > 0
  · rw [if_pos hcy] at h2
    simp only [Option.some.injEq] at h2
    subst h2
    exact ⟨hst, rfl⟩
  · rw [if_neg hcy] at h2
    rw [if_neg (by simp [hime])] at h2
    rw [Option.bind_eq_bind, Option.some_bind] at h2
    simp only [] at h2
    rw [if_pos (by simp [hst])] at h2
    simp only [Option.some.injEq] at h2
    subst h2
    exact ⟨hst, rfl⟩

/-- C3 witness: the IME-clear case of the theorem applied to the halted
fixture `c3noime`, whose step leaves it halted at the same PC. -/
theorem C3_halt_resume_witness :
    c3noime.cpu_state = CpuState.OffUntilInterrupt ∧ c3noime.flag_ime = false ∧
    (c3n.cpu_state = CpuState.OffUntilInterrupt ∧ c3n.reg_pc = c3noime.reg_pc) :=
  ⟨rfl, rfl, C3_halt_resume.2.1 c3noime c3n rfl rfl (by rfl)⟩

/-- C3 counterexample: `c3noime` is halted with VBlank both requested and
enabled, yet (IME being clear) its step leaves it halted — it does not
resume "regardless of whether IME is set". -/
theorem C3_halt_resume_counterexample :
    check_bit c3noime.interconnect.interrupt_flag 0 = true ∧
    check_bit c3noime.interconnect.interrupt_enable 0 = true ∧
    c3noime.cpu_state = CpuState.OffUntilInterrupt ∧
    (c3noime.step).map Cpu.cpu_state = some CpuState.OffUntilInterrupt :=
  ⟨by decide, by decide, rfl, rfl⟩

/-- C4: EI only sets the enable-next latch; on the step that runs the
following instruction the dispatch guard still sees IME clear, so no
interrupt is serviced before that instruction — the step is exactly the
latched instruction execution with IME turned on — and after any
instruction that starts with IME on, IME is still on, so a pending
enabled interrupt is serviced only once that following instruction has
completed. -/
theorem C4_ei_latency :
    (∀ (c : Cpu) (o : Nat),
      c.execInstr Instruction.EI o = some { c with flag_enabling_interrupts := true }) ∧
    (∀ (c : Cpu) (ic' : Interconnect), c.interconnect.update = some ic' →
      c.flag_ime = false → c.flag_enabling_interrupts = true →
      c.flag_disabling_interrupts = false → c.cpu_state = CpuState.On →
      ¬c.cycles > 0 →
      c.step = Cpu.do_next_instrution
        { c with interconnect := ic', flag_enabling_interrupts := false,
                 flag_ime := true }) ∧
    (∀ (c c' : Cpu), c.flag_ime = true → c.do_next_instrution = some c' →
      c'.flag_ime = true) := by
  refine ⟨fun c o => rfl, ?_, ?_⟩
  · intro c ic' hup hime hen hdis hst hcy
    unfold Cpu.step
    rw [hup, Option.bind_eq_bind, Option.some_bind]
    simp only []
    rw [if_neg hcy]
    rw [if_neg (by simp [hime])]
    rw [Option.bind_eq_bind, Option.some_bind]
    simp only []
    rw [if_neg (by simp [hst])]
    rw [if_neg (show ¬(c.flag_disabling_interrupts = true) by simp [hdis])]
    rw [if_pos hen]
  · intro c c' hime h
    obtain ⟨o, c1, -, -, f2⟩ := do_next_frame c c' h
    rcases f2 with f2 | f2
    · rw [f2, hime]
    · exact f2

/-- C4 witness: the EI arm at a concrete state, the latched step of `cEI`
(an enabled VBlank request is pending there), and IME still on after the
instruction that follows EI. -/
theorem C4_ei_latency_witness :
    c2fix.execInstr Instruction.EI 0xFB
        = some { c2fix with flag_enabling_interrupts := true } ∧
    cEI.step = Cpu.do_next_instrution
      { cEI with interconnect := cEIu, flag_enabling_interrupts := false,
                 flag_ime := true } ∧
    cEIres.flag_ime = true :=
  ⟨C4_ei_latency.1 c2fix 0xFB,
   C4_ei_latency.2.1 cEI cEIu rfl rfl rfl rfl rfl (by decide),
   C4_ei_latency.2.2
     { cEI with interconnect := cEIu, flag_enabling_interrupts := false,
                flag_ime := true }
     cEIres rfl (by rfl)⟩

/-- C5 (corrected): push16 followed by pop16 returns the pushed word and
restores SP, provided both stack cells SP and SP-1 lie in writable RAM;
the claim's "SP within writable RAM" alone is not enough (at SP = 0xFF80
the low byte lands at unmapped 0xFF7F and the matching pop fails). -/
theorem C5_push_pop_roundtrip (c : Cpu) (x : Nat) (hx : x < 0x10000)
    (h1 : writable_ram c.reg_sp) (h0 : writable_ram (c.reg_sp - 1)) :
    ∃ c2, (c.push_stack_u16 x).bind Cpu.pop_stack_u16 = some (x, c2) ∧
      c2.reg_sp = c.reg_sp := by
  have hs : 0x8001 ≤ c.reg_sp ∧ c.reg_sp < 0x10000 := by
    rcases h1 with ⟨u1, u2⟩ | ⟨u1, u2⟩ <;> rcases h0 with ⟨v1, v2⟩ | ⟨v1, v2⟩ <;> omega
  obtain ⟨c1, hpush, hrdhi, hrdlo, hsp, hcy, -, -, -, -, -, -, -, -, -, -, -⟩ :=
    push_stack_u16_ram c x h1 h0
  rw [hpush, Option.some_bind]
  have eb : c1.reg_sp + 2 < 0x10000 := by omega
  have ea : c1.reg_sp + 1 = c.reg_sp - 1 := by omega
  have ec : c1.reg_sp + 2 = c.reg_sp := by omega
  obtain ⟨c2, hpop, hsp2, -, -, -, -, -, -⟩ :=
    pop_stack_u16_reads c1 ((x >>> 8) &&& 0xFF) (x &&& 0xFF) eb
      (by rw [ea]; exact hrdlo) (by rw [ec]; exact hrdhi)
  rw [hpop]
  refine ⟨c2, ?_, by omega⟩
  have hx2 : u8s_as_u16 ((x >>> 8) &&& 0xFF, x &&& 0xFF) = x := u8s_as_u16_u16_as_u8s x hx
  rw [hx2]

/-- C5 witness: the round trip at SP = 0xC100 with x = 0xABCD. -/
theorem C5_push_pop_roundtrip_witness :
    ∃ c2, (testCpu.push_stack_u16 0xABCD).bind Cpu.pop_stack_u16
        = some (0xABCD, c2) ∧ c2.reg_sp = testCpu.reg_sp :=
  C5_push_pop_roundtrip testCpu 0xABCD (by decide) (by decide) (by decide)

/-- C5 counterexample: SP = 0xFF80 is within writable RAM, yet the
push-pop round trip fails (the pop's read of 0xFF7F panics). -/
theorem C5_push_pop_roundtrip_counterexample :
    writable_ram c5bad.reg_sp ∧
    (c5bad.push_stack_u16 0x1234).bind Cpu.pop_stack_u16 = none :=
  ⟨by decide, rfl⟩

/-- C6 (corrected): a write to 0xFF46 is a no-op on the entire
interconnect state — `Ppu::write` has no 0xFF46 arm, the I/O dispatch
falls through to a logging arm, and no 160-byte copy into sprite
attribute memory and no cycle charge ever happen. -/
theorem C6_dma_noop : ∀ (ic : Interconnect) (v : Nat),
    ic.write_mem 0xFF46 v = some ic :=
  fun ic v => rfl

/-- C6 counterexample: with 0x55 at source address 0xC000, writing 0xC0
to 0xFF46 leaves sprite memory zero and the PPU cycle counter
unchanged — nothing was copied and nothing was charged. -/
theorem C6_dma_noop_counterexample :
    c6ic.read_mem 0xC000 = some 0x55 ∧
    (c6ic.write_mem 0xFF46 0xC0).map (fun ic => ic.ppu.read_sprite_mem 0xFE00)
        = some 0 ∧
    (c6ic.write_mem 0xFF46 0xC0).map (fun ic => ic.ppu.cycles)
        = some c6ic.ppu.cycles :=
  ⟨rfl, rfl, rfl⟩

/-- C7 (code refutation): the CB decoder shipped in src is not total —
every byte in 0x80..=0xFF (the RES and SET families the claim requires)
decodes to `none` instead of a bit-reset or bit-set instruction. -/
theorem C7_parse_cb_res_set (b : Nat) (hlo : 0x80 ≤ b) (hhi : b ≤ 0xFF) :
    instruction.parse_cb b = none := by
  unfold instruction.parse_cb
  rw [if_neg (by omega), if_neg (by omega), if_neg (by omega)]

/-- C7 witness: the first RES opcode, the first SET opcode and the last
SET opcode all decode to `none`. -/
theorem C7_parse_cb_res_set_witness :
    instruction.parse_cb 0x80 = none ∧ instruction.parse_cb 0xC0 = none ∧
    instruction.parse_cb 0xFF = none :=
  ⟨C7_parse_cb_res_set 0x80 (by decide) (by decide),
   C7_parse_cb_res_set 0xC0 (by decide) (by decide),
   C7_parse_cb_res_set 0xFF (by decide) (by decide)⟩

/-- C8 (code refutation): with the default bank 1 selected, a bus read of
0x4000 returns the ROM byte at offset 16000 — the read multiplies the
bank number by the decimal literal 16000 instead of 0x4000 = 16384 — so
the returned byte (0xAA) differs from the spec expression
`rom[b * 0x4000 + (a - 0x4000)]` (0xBB in this image). -/
theorem C8_rom_bank_offset :
    base_ic.rom_bank_nr = 1 ∧
    base_ic.read_mem 0x4000 = some 0xAA ∧
    base_ic.rom.get? (base_ic.rom_bank_nr * 0x4000 + (0x4000 - 0x4000))
        = some 0xBB :=
  ⟨rfl, rfl, rfl⟩

/-- C9 (corrected): the invariant fails at POP AF: `set_af` stores the
popped word's low byte into F verbatim (no low-nibble masking anywhere),
so F's low nibble is whatever was on the stack; the boolean flag fields
are stored separately and never folded into F. -/
theorem C9_f_low_nibble (c : Cpu) (v : Nat) (c1 : Cpu)
    (h : c.pop_stack_u16 = some (v, c1)) :
    (∀ (d : Cpu) (w : Nat),
      d.set_af w = { d with reg_a := (w >>> 8) &&& 0xFF, reg_f := w &&& 0xFF }) ∧
    ∃ c', c.execInstr Instruction.POP_nn 0xF1 = some c' ∧ c'.reg_f = v &&& 0xFF := by
  refine ⟨fun d w => rfl, (c1.set_af v).add_cycles 8, ?_, rfl⟩
  simp only [Cpu.execInstr, Option.bind_eq_bind]
  rw [h, Option.some_bind]
  rfl

/-- C9 witness: POP AF over the stack word 0x12FF loads F = 0xFF. -/
theorem C9_f_low_nibble_witness :
    (∀ (d : Cpu) (w : Nat),
      d.set_af w = { d with reg_a := (w >>> 8) &&& 0xFF, reg_f := w &&& 0xFF }) ∧
    ∃ c', c9fix.execInstr Instruction.POP_nn 0xF1 = some c' ∧
      c'.reg_f = 0x12FF &&& 0xFF :=
  C9_f_low_nibble c9fix 0x12FF c9popped (by rfl)

/-- C9 counterexample: after POP AF over the stack word 0x12FF, the low
nibble of F is 0xF, not 0. -/
theorem C9_f_low_nibble_counterexample :
    (c9fix.execInstr Instruction.POP_nn 0xF1).map (fun c => c.reg_f &&& 0xF)
        = some 0xF ∧ (0xF : Nat) ≠ 0 :=
  ⟨rfl, by decide⟩

/-- C10: F is 0 at reset; no instruction other than POP AF (opcode 0xF1)
writes the F byte — at the fetch-execute level the F byte survives any
instruction whose fetched opcode is not 0xF1 — while `af` is assembled
from A and F alone and the PUSH AF arm pushes exactly `af`: the byte
PUSH AF pushes is the byte the last POP AF loaded (or the reset 0),
independent of the current boolean flags. -/
theorem C10_push_af_frame :
    (∀ ic : Interconnect, (Cpu.new ic).reg_f = 0) ∧
    (∀ (c : Cpu) (i : Instruction) (o : Nat) (c' : Cpu), c.execInstr i o = some c' →
      c'.reg_f = c.reg_f ∨ (i = Instruction.POP_nn ∧ o = 0xF1)) ∧
    (∀ (c c' : Cpu), c.do_next_instrution = some c' →
      ∃ o c1, c.read_byte = some (o, c1) ∧ (c'.reg_f = c.reg_f ∨ o = 0xF1)) ∧
    (∀ c : Cpu, c.af = ((c.reg_a <<< 8) + c.reg_f) % 0x10000) ∧
    (∀ c : Cpu, c.execInstr Instruction.PUSH_nn 0xF5
        = (c.push_stack_u16 c.af).bind fun c1 => some (c1.add_cycles 12)) := by
  refine ⟨fun ic => rfl, ?_, ?_, fun c => rfl, fun c => ?_⟩
  · intro c i o c' h
    exact (execInstr_frame c i o c' h).1
  · intro c c' h
    obtain ⟨o, c1, h1, f1, -⟩ := do_next_frame c c' h
    exact ⟨o, c1, h1, f1⟩
  · simp only [Cpu.execInstr]
    rw [if_pos trivial]
    rfl

/-- C10 witness: reset F of the fixture interconnect, the frame fact at a
concrete NOP execution, and the fetch-level frame at a concrete
`do_next_instrution` run. -/
theorem C10_push_af_frame_witness :
    (Cpu.new base_ic).reg_f = 0 ∧
    (c2fix.reg_f = c2fix.reg_f ∨
      (Instruction.NOP = Instruction.POP_nn ∧ (0 : Nat) = 0xF1)) ∧
    (∃ o c1, testCpu.read_byte = some (o, c1) ∧
      (testCpuRes.reg_f = testCpu.reg_f ∨ o = 0xF1)) :=
  ⟨C10_push_af_frame.1 base_ic,
   C10_push_af_frame.2.1 c2fix Instruction.NOP 0 c2fix rfl,
   C10_push_af_frame.2.2.1 testCpu testCpuRes (by rfl)⟩

end Rustboy
